import Mathlib

set_option autoImplicit false

/-!
Verification development for the mock 3-D Secure ACS server
(`src/crypto.rs`, `src/handlers.rs`, `src/state_store.rs`, `src/models.rs`).

The Rust source is shallowly embedded: bytes are `List Nat` with every
element kept below 256 by construction, machine integers are `Nat` with
explicit masking, fallible operations return `Option`/`Except`, and the
random values the source samples (IVs, ephemeral keys, UUIDs) are explicit
parameters.  External collaborator crates (`sha2`, `hmac`, `aes`, `aes_gcm`,
`cbc`, `base64`, `p256`) are embedded by their published algorithms
(FIPS 180-4, RFC 2104, FIPS 197, NIST SP 800-38D, RFC 4648, SEC 1 / FIPS
186-4 P-256), since the repository calls them with fixed parameters.
JSON (de)serialisation performed by `serde_json` is modelled by explicit
string construction for the values the source builds, and by oracle
parameters for values the source parses.
-/

/-! ## Byte utilities -/

/-- Byte strings: lists of naturals, each kept `< 256` by construction. -/
abbrev Bytes := List Nat

/-- Big-endian encoding of `n` into `width` bytes (truncating above). -/
def beBytes (width n : Nat) : Bytes :=
  (List.range width).map (fun i => (n >>> (8 * (width - 1 - i))) &&& 255)

/-- Big-endian value of a byte string. -/
def beNat (l : Bytes) : Nat :=
  l.foldl (fun acc b => acc * 256 + b) 0

/-- 4-byte big-endian encoding (`u32::to_be_bytes`). -/
def u32be (n : Nat) : Bytes := beBytes 4 n

/-- 8-byte big-endian encoding (`u64::to_be_bytes`). -/
def u64be (n : Nat) : Bytes := beBytes 8 n

/-- ASCII bytes of a string (`str::as_bytes`; all strings handled by the
embedded code paths are ASCII). -/
def strBytes (s : String) : Bytes := s.data.map Char.toNat

/-- XOR of two byte strings pointwise (truncates to the shorter). -/
def xorBytes (a b : Bytes) : Bytes := List.zipWith Nat.xor a b

/-! ### Character-list string helpers

Core `String` functions such as `splitOn`, `trim` and `toLower` are
implemented on byte positions and do not reduce inside the kernel; the
equivalents below work structurally on the character list. -/

/-- Split a character list at every occurrence of `c`. -/
def splitOnChar (c : Char) : List Char → List (List Char)
  | [] => [[]]
  | d :: rest =>
      match splitOnChar c rest with
      | [] => if d == c then [[], []] else [[d]]
      | h :: t => if d == c then [] :: h :: t else (d :: h) :: t

/-- Split a string at every `.` (`str::split('.')`). -/
def strSplitOnDot (s : String) : List String :=
  (splitOnChar '.' s.data).map String.mk

/-- ASCII lowercase of a string (`str::to_lowercase` on the ASCII
strings the source handles). -/
def strToLower (s : String) : String := String.mk (s.data.map Char.toLower)

/-- Whitespace test for trimming. -/
def isWsChar (c : Char) : Bool :=
  c == ' ' || c == '\t' || c == '\n' || c == '\r'

/-- Trim leading and trailing whitespace (`str::trim`). -/
def strTrim (s : String) : String :=
  String.mk (((s.data.dropWhile isWsChar).reverse.dropWhile isWsChar).reverse)

/-- Leading-substring test (`str::starts_with`). -/
def strStartsWith (s p : String) : Bool := p.data.isPrefixOf s.data

/-- Trailing-substring test (`str::ends_with`). -/
def strEndsWith (s p : String) : Bool :=
  p.data.reverse.isPrefixOf s.data.reverse

/-- Concatenate with separators (kernel-reducible `intercalate`). -/
def strIntercalate (sep : String) : List String → String
  | [] => ""
  | h :: t => t.foldl (fun acc x => acc ++ sep ++ x) h

/-! ## Base64 (RFC 4648), as used by the `base64` crate engines
`STANDARD` (padded) and `URL_SAFE_NO_PAD` (unpadded, strict trailing
bits). -/

/-- The standard base64 alphabet. -/
def b64AlphStd : String :=
  "ABCDEFGHIJKLMNOPQRSTUVWXYZabcdefghijklmnopqrstuvwxyz0123456789+/"

/-- The URL-safe base64 alphabet. -/
def b64AlphUrl : String :=
  "ABCDEFGHIJKLMNOPQRSTUVWXYZabcdefghijklmnopqrstuvwxyz0123456789-_"

/-- 6-bit groups of a byte string, most significant bits first. -/
def b64Sextets : Bytes → List Nat
  | [] => []
  | [a] => [a >>> 2, (a &&& 3) <<< 4]
  | [a, b] => [a >>> 2, ((a &&& 3) <<< 4) ||| (b >>> 4), (b &&& 15) <<< 2]
  | a :: b :: c :: rest =>
      (a >>> 2) :: (((a &&& 3) <<< 4) ||| (b >>> 4)) ::
      (((b &&& 15) <<< 2) ||| (c >>> 6)) :: (c &&& 63) :: b64Sextets rest

/-- Standard base64 encoding with `=` padding (`general_purpose::STANDARD`). -/
def b64StdEncode (l : Bytes) : String :=
  String.mk ((b64Sextets l).map (fun v => b64AlphStd.data.getD v 'A')) ++
    (match l.length % 3 with
     | 1 => "=="
     | 2 => "="
     | _ => "")

/-- URL-safe base64 encoding without padding
(`general_purpose::URL_SAFE_NO_PAD.encode`). -/
def b64UrlEncode (l : Bytes) : String :=
  String.mk ((b64Sextets l).map (fun v => b64AlphUrl.data.getD v 'A'))

/-- Decode one URL-safe base64 character to its 6-bit value. -/
def b64UrlDecChar (c : Char) : Option Nat := b64AlphUrl.data.indexOf? c

/-- Reassemble bytes from 6-bit groups; rejects a lone trailing character
and nonzero trailing bits, as the `base64` crate's strict decoder does. -/
def b64SextetsToBytes : List Nat → Option Bytes
  | [] => some []
  | [_] => none
  | [a, b] => if b &&& 15 == 0 then some [(a <<< 2) ||| (b >>> 4)] else none
  | [a, b, c] =>
      if c &&& 3 == 0 then
        some [(a <<< 2) ||| (b >>> 4), ((b &&& 15) <<< 4) ||| (c >>> 2)]
      else none
  | a :: b :: c :: d :: rest =>
      match b64SextetsToBytes rest with
      | some bs =>
          some (((a <<< 2) ||| (b >>> 4)) ::
                (((b &&& 15) <<< 4) ||| (c >>> 2)) ::
                (((c &&& 3) <<< 6) ||| d) :: bs)
      | none => none

/-- Map every character through `b64UrlDecChar`, failing on a foreign one. -/
def b64DecChars : List Char → Option (List Nat)
  | [] => some []
  | c :: cs =>
      match b64UrlDecChar c, b64DecChars cs with
      | some v, some vs => some (v :: vs)
      | _, _ => none

/-- URL-safe no-pad base64 decoding
(`general_purpose::URL_SAFE_NO_PAD.decode`). -/
def b64UrlDecode (s : String) : Option Bytes :=
  match b64DecChars s.data with
  | some vs => b64SextetsToBytes vs
  | none => none

/-! ## SHA-256 (FIPS 180-4), the `sha2` crate -/

/-- The 64 SHA-256 round constants. -/
def shaK : List Nat :=
  [1116352408, 1899447441, 3049323471, 3921009573, 961987163, 1508970993,
   2453635748, 2870763221, 3624381080, 310598401, 607225278, 1426881987,
   1925078388, 2162078206, 2614888103, 3248222580, 3835390401, 4022224774,
   264347078, 604807628, 770255983, 1249150122, 1555081692, 1996064986,
   2554220882, 2821834349, 2952996808, 3210313671, 3336571891, 3584528711,
   113926993, 338241895, 666307205, 773529912, 1294757372, 1396182291,
   1695183700, 1986661051, 2177026350, 2456956037, 2730485921, 2820302411,
   3259730800, 3345764771, 3516065817, 3600352804, 4094571909, 275423344,
   430227734, 506948616, 659060556, 883997877, 958139571, 1322822218,
   1537002063, 1747873779, 1955562222, 2024104815, 2227730452, 2361852424,
   2428436474, 2756734187, 3204031479, 3329325298]

/-- The SHA-256 initial hash state. -/
def shaH0 : List Nat :=
  [1779033703, 3144134277, 1013904242, 2773480762,
   1359893119, 2600822924, 528734635, 1541459225]

/-- Right rotation of a 32-bit word. -/
def rotr32 (n x : Nat) : Nat := ((x >>> n) ||| (x <<< (32 - n))) &&& 0xffffffff

/-- 32-bit wrapping addition. -/
def add32 (a b : Nat) : Nat := (a + b) &&& 0xffffffff

/-- SHA-256 Σ0. -/
def bSig0 (x : Nat) : Nat := rotr32 2 x ^^^ rotr32 13 x ^^^ rotr32 22 x

/-- SHA-256 Σ1. -/
def bSig1 (x : Nat) : Nat := rotr32 6 x ^^^ rotr32 11 x ^^^ rotr32 25 x

/-- SHA-256 σ0. -/
def sSig0 (x : Nat) : Nat := rotr32 7 x ^^^ rotr32 18 x ^^^ (x >>> 3)

/-- SHA-256 σ1. -/
def sSig1 (x : Nat) : Nat := rotr32 17 x ^^^ rotr32 19 x ^^^ (x >>> 10)

/-- Group bytes into big-endian 32-bit words. -/
def bytesToWords32 : Bytes → List Nat
  | a :: b :: c :: d :: rest =>
      (((a <<< 8 ||| b) <<< 8 ||| c) <<< 8 ||| d) :: bytesToWords32 rest
  | _ => []

/-- Extend 16 message words to the 64-entry SHA-256 message schedule. -/
def shaSchedule (w16 : List Nat) : List Nat :=
  (List.range 48).foldl
    (fun w _ =>
      let n := w.length
      w ++ [add32 (add32 (sSig1 (w.getD (n - 2) 0)) (w.getD (n - 7) 0))
              (add32 (sSig0 (w.getD (n - 15) 0)) (w.getD (n - 16) 0))])
    w16

/-- One SHA-256 compression round. -/
def shaRound (st : Nat × Nat × Nat × Nat × Nat × Nat × Nat × Nat)
    (kw : Nat × Nat) : Nat × Nat × Nat × Nat × Nat × Nat × Nat × Nat :=
  match st, kw with
  | (a, b, c, d, e, f, g, h), (k, w) =>
    let t1 := add32 (add32 (add32 h (bSig1 e))
      (add32 ((e &&& f) ^^^ ((0xffffffff ^^^ e) &&& g)) k)) w
    let t2 := add32 (bSig0 a) (((a &&& b) ^^^ (a &&& c)) ^^^ (b &&& c))
    (add32 t1 t2, a, b, c, add32 d t1, e, f, g)

/-- Compress one 64-byte block into the running hash state. -/
def shaCompress (hs : List Nat) (block : Bytes) : List Nat :=
  let w := shaSchedule (bytesToWords32 block)
  let a0 := hs.getD 0 0
  let b0 := hs.getD 1 0
  let c0 := hs.getD 2 0
  let d0 := hs.getD 3 0
  let e0 := hs.getD 4 0
  let f0 := hs.getD 5 0
  let g0 := hs.getD 6 0
  let h0 := hs.getD 7 0
  let r := (shaK.zip w).foldl shaRound (a0, b0, c0, d0, e0, f0, g0, h0)
  [add32 a0 r.1, add32 b0 r.2.1, add32 c0 r.2.2.1, add32 d0 r.2.2.2.1,
   add32 e0 r.2.2.2.2.1, add32 f0 r.2.2.2.2.2.1,
   add32 g0 r.2.2.2.2.2.2.1, add32 h0 r.2.2.2.2.2.2.2]

/-- SHA-256 padding: `0x80`, zeros to 56 mod 64, 8-byte bit length. -/
def shaPad (msg : Bytes) : Bytes :=
  msg ++ 0x80 :: List.replicate ((119 - msg.length % 64) % 64) 0 ++
    u64be (8 * msg.length)

/-- Split a byte string into 64-byte blocks (fuel-driven for kernel
reduction). -/
def toBlocks64 : Nat → Bytes → List Bytes
  | 0, _ => []
  | _, [] => []
  | fuel + 1, l => l.take 64 :: toBlocks64 fuel (l.drop 64)

/-- SHA-256 of a byte string. -/
def sha256 (msg : Bytes) : Bytes :=
  let padded := shaPad msg
  ((toBlocks64 padded.length padded).foldl shaCompress shaH0).flatMap u32be

/-! ## HMAC-SHA-256 (RFC 2104), the `hmac` crate -/

/-- HMAC-SHA-256 with the usual block size of 64 bytes. -/
def hmacSha256 (key msg : Bytes) : Bytes :=
  let k0 := if key.length > 64 then sha256 key else key
  let k0p := k0 ++ List.replicate (64 - k0.length) 0
  let ipad := k0p.map (fun b => b ^^^ 0x36)
  let opad := k0p.map (fun b => b ^^^ 0x5c)
  sha256 (opad ++ sha256 (ipad ++ msg))

/-! ## AES-128 (FIPS 197), the `aes` crate -/

/-- The AES S-box packed into one natural: byte `i` sits at bit `8*i`. -/
def sboxN : Nat :=
  0x16bb54b00f2d99416842e6bf0d89a18cdf2855cee9871e9b948ed9691198f8e19e1dc186b95735610ef6034866b53e708a8bbd4b1f74dde8c6b4a61c2e2578ba08ae7a65eaf4566ca94ed58d6d37c8e779e4959162acd3c25c2406490a3a32e0db0b5ede14b8ee4688902a22dc4f816073195d643d7ea7c41744975fec130ccdd2f3ff1021dab6bcf5389d928f40a351a89f3c507f02f94585334d43fbaaefd0cf584c4a39becb6a5bb1fc20ed00d153842fe329b3d63b52a05a6e1b1a2c830975b227ebe28012079a059618c323c7041531d871f1e5a534ccf73f362693fdb7c072a49cafa2d4adf04759fa7dc982ca76abd7fe2b670130c56f6bf27b777c63

/-- The inverse AES S-box, packed the same way. -/
def invSboxN : Nat :=
  0x7d0c2155631469e126d677ba7e042b17619953833cbbebc8b0f52aae4d3be0a0ef9cc9939f7ae52d0d4ab519a97f51605fec8027591012b131c7078833a8dd1ff45acd78fec0db9a2079d2c64b3e56fc1bbe18aa0e62b76f89c5291d711af1476edf751ce837f9e28535ade72274ac9673e6b4f0cecff297eadc674f4111913a6b8a130103bdafc1020f3fca8f1e2cd00645b3b80558e4f70ad3bc8c00abd890849d8da75746155edab9edfd5048706c92b6655dcc5ca4d41698688664f6f87225d18b6d49a25b76b224d92866a12e084ec3fa420b954cee3d23c2a632947b54cbe9dec444438e3487ff2f9b8239e37cfbd7f3819ea340bf38a53630d56a0952

/-- S-box lookup. -/
def sboxAt (i : Nat) : Nat := (sboxN >>> (8 * i)) &&& 255

/-- Inverse S-box lookup. -/
def invSboxAt (i : Nat) : Nat := (invSboxN >>> (8 * i)) &&& 255

/-- Multiplication by `x` in GF(2^8) with the AES reduction polynomial. -/
def xtime (a : Nat) : Nat :=
  ((a <<< 1) ^^^ (if a ≥ 0x80 then 0x1b else 0)) &&& 255

/-- GF(2^8) product (Russian-peasant form over 8 bits). -/
def gmul (a b : Nat) : Nat :=
  (((List.range 8).foldl
    (fun st _ =>
      let acc := st.1
      let aa := st.2.1
      let bb := st.2.2
      (if bb &&& 1 == 1 then acc ^^^ aa else acc, xtime aa, bb >>> 1))
    (0, a, b))).1

/-- The AES round constants for key expansion. -/
def aesRcon : List Nat := [0x01, 0x02, 0x04, 0x08, 0x10, 0x20, 0x40, 0x80, 0x1b, 0x36]

/-- Rotate a 4-byte word left by one byte. -/
def rotWord (w : Bytes) : Bytes := w.drop 1 ++ w.take 1

/-- Key expansion: the 44 four-byte words of the AES-128 key schedule. -/
def aesKeyWords (key : Bytes) : List Bytes :=
  (List.range 40).foldl
    (fun ws _ =>
      let i := ws.length
      let prev := ws.getD (i - 1) []
      let temp :=
        if i % 4 == 0 then
          xorBytes ((rotWord prev).map sboxAt)
            [aesRcon.getD (i / 4 - 1) 0, 0, 0, 0]
        else prev
      ws ++ [xorBytes (ws.getD (i - 4) []) temp])
    [key.take 4, (key.drop 4).take 4, (key.drop 8).take 4, (key.drop 12).take 4]

/-- The 11 sixteen-byte round keys of AES-128. -/
def aesRoundKeys (key : Bytes) : List Bytes :=
  let ws := aesKeyWords key
  (List.range 11).map (fun r =>
    ws.getD (4 * r) [] ++ ws.getD (4 * r + 1) [] ++
    ws.getD (4 * r + 2) [] ++ ws.getD (4 * r + 3) [])

/-- ShiftRows as an index permutation on the 16-byte state. -/
def shiftRowsPerm : List Nat := [0, 5, 10, 15, 4, 9, 14, 3, 8, 13, 2, 7, 12, 1, 6, 11]

/-- InvShiftRows as an index permutation on the 16-byte state. -/
def invShiftRowsPerm : List Nat := [0, 13, 10, 7, 4, 1, 14, 11, 8, 5, 2, 15, 12, 9, 6, 3]

/-- Apply an index permutation to a state. -/
def applyPerm (perm : List Nat) (s : Bytes) : Bytes :=
  perm.map (fun i => s.getD i 0)

/-- MixColumns on the 16-byte state, four bytes at a time. -/
def mixCols : Bytes → Bytes
  | a0 :: a1 :: a2 :: a3 :: rest =>
      (gmul a0 2 ^^^ gmul a1 3 ^^^ a2 ^^^ a3) ::
      (a0 ^^^ gmul a1 2 ^^^ gmul a2 3 ^^^ a3) ::
      (a0 ^^^ a1 ^^^ gmul a2 2 ^^^ gmul a3 3) ::
      (gmul a0 3 ^^^ a1 ^^^ a2 ^^^ gmul a3 2) :: mixCols rest
  | l => l

/-- InvMixColumns on the 16-byte state. -/
def invMixCols : Bytes → Bytes
  | a0 :: a1 :: a2 :: a3 :: rest =>
      (gmul a0 14 ^^^ gmul a1 11 ^^^ gmul a2 13 ^^^ gmul a3 9) ::
      (gmul a0 9 ^^^ gmul a1 14 ^^^ gmul a2 11 ^^^ gmul a3 13) ::
      (gmul a0 13 ^^^ gmul a1 9 ^^^ gmul a2 14 ^^^ gmul a3 11) ::
      (gmul a0 11 ^^^ gmul a1 13 ^^^ gmul a2 9 ^^^ gmul a3 14) :: invMixCols rest
  | l => l

/-- AES-128 block encryption given the expanded round keys. -/
def aesEncBlock (rks : List Bytes) (blk : Bytes) : Bytes :=
  let st0 := xorBytes blk (rks.getD 0 [])
  let st9 := (List.range 9).foldl
    (fun st r =>
      xorBytes (mixCols (applyPerm shiftRowsPerm (st.map sboxAt)))
        (rks.getD (r + 1) []))
    st0
  xorBytes (applyPerm shiftRowsPerm (st9.map sboxAt)) (rks.getD 10 [])

/-- AES-128 block decryption given the expanded round keys. -/
def aesDecBlock (rks : List Bytes) (blk : Bytes) : Bytes :=
  let st0 := xorBytes blk (rks.getD 10 [])
  let st9 := (List.range 9).foldl
    (fun st r =>
      invMixCols (xorBytes ((applyPerm invShiftRowsPerm st).map invSboxAt)
        (rks.getD (9 - r) [])))
    st0
  xorBytes ((applyPerm invShiftRowsPerm st9).map invSboxAt) (rks.getD 0 [])

/-! ## CBC mode with PKCS#7 (the `cbc` crate with `Pkcs7` padding) -/

/-- Split a byte string into 16-byte blocks (fuel-driven). -/
def toBlocks16 : Nat → Bytes → List Bytes
  | 0, _ => []
  | _, [] => []
  | fuel + 1, l => l.take 16 :: toBlocks16 fuel (l.drop 16)

/-- PKCS#7 padding to a multiple of 16 bytes. -/
def pkcs7Pad (l : Bytes) : Bytes :=
  let n := 16 - l.length % 16
  l ++ List.replicate n n

/-- PKCS#7 unpadding; `none` on an invalid padding byte. -/
def pkcs7Unpad (l : Bytes) : Option Bytes :=
  match l.getLast? with
  | none => none
  | some n =>
      if 1 ≤ n ∧ n ≤ 16 ∧ n ≤ l.length ∧
          (l.drop (l.length - n)).all (fun b => b == n) then
        some (l.take (l.length - n))
      else none

/-- AES-128-CBC encryption of PKCS#7-padded data. -/
def cbcEncrypt (key iv pt : Bytes) : Bytes :=
  let rks := aesRoundKeys key
  let padded := pkcs7Pad pt
  (((toBlocks16 padded.length padded).foldl
    (fun st p =>
      let c := aesEncBlock rks (xorBytes p st.2)
      (st.1 ++ c, c))
    (([] : Bytes), iv))).1

/-- AES-128-CBC decryption followed by PKCS#7 unpadding; `none` on a
ciphertext that is not a positive multiple of the block size or on bad
padding (`decrypt_padded_mut::<Pkcs7>` errors). -/
def cbcDecrypt (key iv ct : Bytes) : Option Bytes :=
  if ct.length % 16 == 0 ∧ ct.length > 0 then
    let rks := aesRoundKeys key
    let raw := (((toBlocks16 ct.length ct).foldl
      (fun st c => (st.1 ++ xorBytes (aesDecBlock rks c) st.2, c))
      (([] : Bytes), iv))).1
    pkcs7Unpad raw
  else none

/-! ## AES-128-GCM (NIST SP 800-38D), the `aes_gcm` crate -/

/-- The GHASH reduction constant `R`. -/
def gfR : Nat := 0xe1 <<< 120

/-- GF(2^128) product in the GCM bit-reflected representation. -/
def gf128Mul (x y : Nat) : Nat :=
  (((List.range 128).foldl
    (fun st i =>
      let z := st.1
      let v := st.2
      (if x.testBit (127 - i) then z ^^^ v else z,
       if v &&& 1 == 1 then (v >>> 1) ^^^ gfR else v >>> 1))
    (0, y))).1

/-- Zero-pad to a multiple of 16 bytes. -/
def gcmPad16 (l : Bytes) : Bytes :=
  l ++ List.replicate ((16 - l.length % 16) % 16) 0

/-- GHASH over data already padded to full blocks. -/
def ghash (h : Nat) (data : Bytes) : Nat :=
  (toBlocks16 data.length data).foldl
    (fun y blk => gf128Mul (y ^^^ beNat blk) h) 0

/-- The `i`-th GCM counter block (`inc32` applied `i+1` times to `J0`). -/
def gcmCtr (j0 i : Nat) : Bytes :=
  beBytes 16 ((j0 &&& (2 ^ 128 - 2 ^ 32)) ||| ((j0 + i + 1) &&& 0xffffffff))

/-- The GCM keystream for `n` blocks. -/
def gcmKeystream (rks : List Bytes) (j0 n : Nat) : Bytes :=
  (List.range n).flatMap (fun i => aesEncBlock rks (gcmCtr j0 i))

/-- AES-128-GCM authentication tag for a given ciphertext. -/
def gcmTag (rks : List Bytes) (j0 : Nat) (aad ct : Bytes) : Bytes :=
  let h := beNat (aesEncBlock rks (List.replicate 16 0))
  let s := ghash h (gcmPad16 aad ++ gcmPad16 ct ++
    u64be (8 * aad.length) ++ u64be (8 * ct.length))
  xorBytes (aesEncBlock rks (beBytes 16 j0)) (beBytes 16 s)

/-- AES-128-GCM encryption with a 12-byte nonce: ciphertext and 16-byte
tag (`encrypt_in_place_detached`). -/
def gcmEncrypt (key iv aad pt : Bytes) : Bytes × Bytes :=
  let rks := aesRoundKeys key
  let j0 := beNat (iv ++ [0, 0, 0, 1])
  let ct := xorBytes pt (gcmKeystream rks j0 ((pt.length + 15) / 16))
  (ct, gcmTag rks j0 aad ct)

/-- AES-128-GCM decryption (`decrypt_in_place_detached`): verifies the
tag before releasing the plaintext. -/
def gcmDecrypt (key iv aad ct tag : Bytes) : Option Bytes :=
  let rks := aesRoundKeys key
  let j0 := beNat (iv ++ [0, 0, 0, 1])
  if gcmTag rks j0 aad ct == tag then
    some (xorBytes ct (gcmKeystream rks j0 ((ct.length + 15) / 16)))
  else none

/-! ## P-256 (FIPS 186-4 / SEC 1), the `p256` crate -/

/-- The P-256 field prime. -/
def p256P : Nat :=
  0xffffffff00000001000000000000000000000000ffffffffffffffffffffffff

/-- The P-256 group order. -/
def p256N : Nat :=
  0xffffffff00000000ffffffffffffffffbce6faada7179e84f3b9cac2fc632551

/-- The P-256 curve coefficient `b`. -/
def p256B : Nat :=
  0x5ac635d8aa3a93e7b3ebbd55769886bc651d06b0cc53b0f63bce3c3e27d2604b

/-- The P-256 curve coefficient `a = -3 mod p`. -/
def p256A : Nat := p256P - 3

/-- Subtraction mod `p`. -/
def psub (a b : Nat) : Nat := (a + (p256P - b % p256P)) % p256P

/-- Multiplication mod `p`. -/
def pmul (a b : Nat) : Nat := a * b % p256P

/-- Computes `b ^ e mod p` by 256-bit square-and-multiply (kernel-reducible). -/
def powModP (b e : Nat) : Nat :=
  (List.range 256).foldl
    (fun acc i =>
      let acc2 := acc * acc % p256P
      if e.testBit (255 - i) then acc2 * b % p256P else acc2) 1

/-- Inverse mod `p` by Fermat. -/
def pinv (x : Nat) : Nat := powModP x (p256P - 2)

/-- Jacobian projective point `(X, Y, Z)`; `Z = 0` is the identity. -/
abbrev JPoint := Nat × Nat × Nat

/-- The identity point. -/
def jInfinity : JPoint := (1, 1, 0)

/-- Jacobian point doubling. -/
def jDouble (P : JPoint) : JPoint :=
  let x := P.1
  let y := P.2.1
  let z := P.2.2
  if z == 0 || y == 0 then jInfinity
  else
    let ysq := pmul y y
    let s := pmul 4 (pmul x ysq)
    let zsq := pmul z z
    let m := (3 * pmul x x + pmul p256A (pmul zsq zsq)) % p256P
    let x3 := psub (pmul m m) (pmul 2 s)
    let y3 := psub (pmul m (psub s x3)) (pmul 8 (pmul ysq ysq))
    (x3, y3, pmul 2 (pmul y z))

/-- Jacobian point addition. -/
def jAdd (P Q : JPoint) : JPoint :=
  let x1 := P.1
  let y1 := P.2.1
  let z1 := P.2.2
  let x2 := Q.1
  let y2 := Q.2.1
  let z2 := Q.2.2
  if z1 == 0 then Q
  else if z2 == 0 then P
  else
    let z1sq := pmul z1 z1
    let z2sq := pmul z2 z2
    let u1 := pmul x1 z2sq
    let u2 := pmul x2 z1sq
    let s1 := pmul y1 (pmul z2 z2sq)
    let s2 := pmul y2 (pmul z1 z1sq)
    if u1 == u2 then
      if s1 == s2 then jDouble P else jInfinity
    else
      let h := psub u2 u1
      let r := psub s2 s1
      let hsq := pmul h h
      let hcu := pmul h hsq
      let x3 := psub (psub (pmul r r) hcu) (pmul 2 (pmul u1 hsq))
      let y3 := psub (pmul r (psub (pmul u1 hsq) x3)) (pmul s1 hcu)
      (x3, y3, pmul h (pmul z1 z2))

/-- Binary scalar multiplication, least significant bit first:
`[d]P = (d odd ? P : O) + 2 [d/2] P`, with enough fuel for 256-bit
scalars and early exit at zero. -/
def jScalarMulGo (P : JPoint) : Nat → Nat → JPoint
  | 0, _ => jInfinity
  | fuel + 1, d =>
      if d == 0 then jInfinity
      else
        let dbl := jDouble (jScalarMulGo P fuel (d >>> 1))
        if d &&& 1 == 1 then jAdd dbl P else dbl

/-- Scalar multiplication on P-256 points. -/
def jScalarMul (d : Nat) (P : JPoint) : JPoint := jScalarMulGo P 256 d

/-- Affine x-coordinate of a Jacobian point; `none` at the identity. -/
def jAffineX (P : JPoint) : Option Nat :=
  if P.2.2 == 0 then none
  else some (pmul P.1 (pinv (pmul P.2.2 P.2.2)))

/-- SEC 1 uncompressed point parsing (`p256::PublicKey::from_sec1_bytes`):
65 bytes, leading `0x04`, both coordinates below `p`, point on the curve. -/
def sec1Parse (l : Bytes) : Option (Nat × Nat) :=
  if l.length == 65 && l.headD 0 == 4 then
    let x := beNat ((l.drop 1).take 32)
    let y := beNat (l.drop 33)
    if x < p256P && y < p256P &&
        pmul y y == (pmul x (pmul x x) + pmul p256A x + p256B) % p256P then
      some (x, y)
    else none
  else none

/-- Scalar parsing (`p256::SecretKey::from_bytes`): 32 bytes, value in
`[1, n-1]`. -/
def scalarFromBytes (l : Bytes) : Option Nat :=
  if l.length == 32 && 1 ≤ beNat l && beNat l < p256N then some (beNat l)
  else none

/-- ECDH shared secret (`p256::ecdh::diffie_hellman`): the affine
x-coordinate of `[d]P` as 32 big-endian bytes. -/
def ecdhZ (d : Nat) (P : Nat × Nat) : Option Bytes :=
  match jAffineX (jScalarMul d (P.1, P.2, 1)) with
  | some x => some (beBytes 32 x)
  | none => none

/-! ## Small JSON helpers

`serde_json` serialises `json!` maps with keys in sorted (BTreeMap) order;
the objects the source builds are flat string-to-string maps, constructed
here as explicit strings.  The flat parser below handles exactly that
shape (no escapes, no nesting, no whitespace), which covers every JSON
value produced by the embedded code. -/

/-- Quote a JSON string value (the embedded values contain no escapes). -/
def jsonQ (s : String) : String := "\"" ++ s ++ "\""

/-- Serialise a flat string-to-string JSON object with the fields in the
given (already sorted) order. -/
def mkJsonObj (fields : List (String × String)) : String :=
  "\x7b" ++ strIntercalate ","
    ((fields.map (fun kv => jsonQ kv.1 ++ ":" ++ jsonQ kv.2))) ++ "\x7d"

/-- Parse a double-quoted string with no escapes: returns content and
remainder. -/
def parseQuoted : List Char → Option (String × List Char)
  | c :: rest =>
      if c == '"' then
        match rest.span (fun d => d != '"') with
        | (content, e :: rest') =>
            if e == '"' then some (String.mk content, rest') else none
        | _ => none
      else none
  | [] => none

/-- Parse `"k":"v"` pairs separated by commas, ending at `\x7d`. -/
def parsePairs : Nat → List Char → Option (List (String × String))
  | 0, _ => none
  | fuel + 1, cs =>
      match parseQuoted cs with
      | some (k, rest) =>
          match rest with
          | c :: rest' =>
              if c == ':' then
                match parseQuoted rest' with
                | some (v, rest'') =>
                    match rest'' with
                    | [d] => if d == Char.ofNat 125 then some [(k, v)] else none
                    | d :: more =>
                        if d == ',' then
                          match parsePairs fuel more with
                          | some ps => some ((k, v) :: ps)
                          | none => none
                        else none
                    | [] => none
                | none => none
              else none
          | [] => none
      | none => none

/-- Parse a flat JSON object of string fields. -/
def jsonFlatParse (s : String) : Option (List (String × String)) :=
  match s.data with
  | c :: rest =>
      if c == Char.ofNat 123 then parsePairs (s.length + 1) rest else none
  | [] => none

/-- Look a field up in a parsed flat object (`header_json["k"].as_str()`). -/
def jsonGet (fields : List (String × String)) (k : String) : Option String :=
  (fields.find? (fun kv => kv.1 == k)).map (fun kv => kv.2)

/-! ## Miscellaneous encoders used by the handlers -/

/-- Uppercase hex digit. -/
def hexDigitU (n : Nat) : Char := "0123456789ABCDEF".data.getD n '0'

/-- Percent-encode one character (the `urlencoding` crate: ASCII
alphanumerics and `-`, `_`, `.`, `~` pass through). -/
def urlencodeChar (c : Char) : String :=
  if c.isAlphanum || c == '-' || c == '_' || c == '.' || c == '~' then
    String.singleton c
  else
    "%" ++ String.mk [hexDigitU (c.toNat / 16), hexDigitU (c.toNat % 16)]

/-- Percent-encoding of an (ASCII) string (`urlencoding::encode`). -/
def urlencode (s : String) : String :=
  (s.data.map urlencodeChar).foldl (fun acc x => acc ++ x) ""

/-- Hex digit test. -/
def isHexDig (c : Char) : Bool :=
  c.isDigit || ('a' ≤ c && c ≤ 'f') || ('A' ≤ c && c ≤ 'F')

/-- UUID parsing (`uuid::Uuid::parse_str`) for the hyphenated and simple
forms, normalised to the lowercase hyphenated rendering that
`Uuid::to_string` produces.  (The crate also accepts URN and braced
forms; no embedded code path feeds those.) -/
def uuidParse (s : String) : Option String :=
  let cs := s.data
  if cs.length == 36 then
    if (List.range 36).all (fun i =>
        if i == 8 || i == 13 || i == 18 || i == 23 then
          cs.getD i ' ' == '-'
        else isHexDig (cs.getD i ' ')) then
      some (String.mk (cs.map Char.toLower))
    else none
  else if cs.length == 32 && cs.all isHexDig then
    let l := cs.map Char.toLower
    some (String.mk (l.take 8 ++ '-' :: (l.drop 8).take 4 ++
      '-' :: (l.drop 12).take 4 ++ '-' :: (l.drop 16).take 4 ++
      '-' :: l.drop 20))
  else none

/-! ## `src/crypto.rs` -/

/-- Source `crypto.rs`: public JWK coordinates (`AcsEphemPubKey`). -/
structure AcsEphemPubKey where
  kty : String
  crv : String
  x : String
  y : String
deriving Repr, DecidableEq

/-- Source `crypto.rs`: ephemeral key pair (`EphemeralKeyPair`): base64url
scalar plus public JWK. -/
structure EphemeralKeyPair where
  private_key : String
  public_key : AcsEphemPubKey
deriving Repr, DecidableEq

/-- Source `crypto.rs::calculate_derived_key`, ECDH + ConcatKDF.  The JWK
argument is the parsed form of the `sdk_public_key_jwk` JSON string (the
parse itself is `serde_json`); the `x`/`y` fields and the private key are
base64url strings exactly as in the source.  Random data: none. -/
def calculate_derived_key (sdkJwk : AcsEphemPubKey) (ourPrivateKey : String)
    (platform : String) : Except String Bytes :=
  match b64UrlDecode sdkJwk.x with
  | none => .error "invalid base64 in x"
  | some xBytes =>
    match b64UrlDecode sdkJwk.y with
    | none => .error "invalid base64 in y"
    | some yBytes =>
      match b64UrlDecode ourPrivateKey with
      | none => .error "invalid base64 in private key"
      | some dBytes =>
        if dBytes.length != 32 then
          .error "Invalid private key length"
        else
          match scalarFromBytes dBytes with
          | none => .error "Failed to create private key"
          | some d =>
            match sec1Parse (4 :: (xBytes ++ yBytes)) with
            | none => .error "Failed to parse SDK public key"
            | some pt =>
              match ecdhZ d pt with
              | none => .error "ECDH produced the identity"
              | some z =>
                match
                  (if strToLower platform == "android" then
                    some "3DS_LOA_SDK_JTPL_020200_00788"
                  else if strToLower platform == "ios" then
                    some "3DS_LOA_SDK_JTPL_020200_00805"
                  else none)
                with
                | none => .error ("Unsupported platform: " ++ platform)
                | some sdkReferenceNumber =>
                  let partyVInfo :=
                    u32be sdkReferenceNumber.length ++ strBytes sdkReferenceNumber
                  let otherInfo :=
                    [0, 0, 0, 0] ++ [0, 0, 0, 0] ++ partyVInfo ++ [0, 0, 0x01, 0x00]
                  let kdfInput := [0, 0, 0, 0x01] ++ z ++ otherInfo
                  .ok ((sha256 kdfInput).take 32)

/-- The JWE protected header the source serialises
(`json!` with keys `alg`, `enc`, `kid`; BTreeMap order). -/
def jweHeaderStr (enc kid : String) : String :=
  mkJsonObj [("alg", "dir"), ("enc", enc), ("kid", kid)]

/-- Source `crypto.rs::encrypt_challenge_response`.  `plaintext` is
`serde_json::to_vec(response_data)`; `iv` is the random IV the source
samples from `OsRng` (16 bytes for Android, 12 for iOS). -/
def encrypt_challenge_response (plaintext : Bytes) (acsTransId : String)
    (derivedKey : Bytes) (platform : String) (iv : Bytes) :
    Except String String :=
  if strToLower platform == "android" then
    if derivedKey.length != 32 then
      .error "Invalid derived key length for Android"
    else
      let hmacKey := derivedKey.take 16
      let aesKey := (derivedKey.drop 16).take 16
      let ciphertext := cbcEncrypt aesKey iv plaintext
      let headerB64 := b64UrlEncode (strBytes (jweHeaderStr "A128CBC-HS256" acsTransId))
      let aad := strBytes headerB64
      let hmacInput := aad ++ iv ++ ciphertext ++ u64be (aad.length * 8)
      let tag := (hmacSha256 hmacKey hmacInput).take 16
      .ok (headerB64 ++ "." ++ "" ++ "." ++ b64UrlEncode iv ++ "." ++
        b64UrlEncode ciphertext ++ "." ++ b64UrlEncode tag)
  else if strToLower platform == "ios" then
    if derivedKey.length < 32 then
      .error "Insufficient key material for iOS"
    else
      let iosKey := (derivedKey.drop 16).take 16
      let headerB64 := b64UrlEncode (strBytes (jweHeaderStr "A128GCM" acsTransId))
      let aad := strBytes headerB64
      let ctTag := gcmEncrypt iosKey iv aad plaintext
      .ok (headerB64 ++ "." ++ "" ++ "." ++ b64UrlEncode iv ++ "." ++
        b64UrlEncode ctTag.1 ++ "." ++ b64UrlEncode ctTag.2)
  else .error ("Unsupported platform: " ++ platform)

/-- Source `crypto.rs::decrypt_challenge_request`.  Returns the decrypted
plaintext bytes; the final `serde_json::from_slice` of the source is the
external serde layer and is modelled at the call sites. -/
def decrypt_challenge_request (jweString : String) (derivedKeyBuffer : Bytes) :
    Except String Bytes :=
  let jweParts := strSplitOnDot jweString
  if jweParts.length != 5 then
    .error "Invalid JWE structure, expected 5 parts."
  else
    match b64UrlDecode (jweParts.getD 0 "") with
    | none => .error "invalid header base64"
    | some headerData =>
      match jsonFlatParse (String.mk (headerData.map Char.ofNat)) with
      | none => .error "invalid header JSON"
      | some headerJson =>
        let encryption := (jsonGet headerJson "enc").getD "unknown"
        match b64UrlDecode (jweParts.getD 2 "") with
        | none => .error "invalid iv base64"
        | some iv =>
          match b64UrlDecode (jweParts.getD 3 "") with
          | none => .error "invalid ciphertext base64"
          | some ciphertext =>
            match b64UrlDecode (jweParts.getD 4 "") with
            | none => .error "invalid tag base64"
            | some authTag =>
              if encryption == "A128CBC-HS256" then
                if derivedKeyBuffer.length != 32 then
                  .error "Invalid derived key length for Android"
                else
                  let hmacKey := derivedKeyBuffer.take 16
                  let aesKey := (derivedKeyBuffer.drop 16).take 16
                  let aad := strBytes (jweParts.getD 0 "")
                  let hmacInput := aad ++ iv ++ ciphertext ++ u64be (aad.length * 8)
                  let truncatedHmac := (hmacSha256 hmacKey hmacInput).take 16
                  if truncatedHmac != authTag then
                    .error "HMAC verification failed - authentication tag does not match"
                  else
                    match cbcDecrypt aesKey iv ciphertext with
                    | none => .error "AES-CBC decryption failed"
                    | some plaintext => .ok plaintext
              else if encryption == "A128GCM" then
                if derivedKeyBuffer.length < 16 then
                  .error "Insufficient key material for iOS"
                else
                  let iosKey := derivedKeyBuffer.take 16
                  let aad := strBytes (jweParts.getD 0 "")
                  if iv.length < 12 then
                    .error "IV too short for GCM"
                  else
                    match gcmDecrypt iosKey (iv.take 12) aad ciphertext authTag with
                    | none => .error "iOS A128GCM decryption failed"
                    | some plaintext => .ok plaintext
              else .error ("Unsupported encryption algorithm: " ++ encryption)

/-! ## `src/models.rs`

UUIDs are modelled as their canonical strings.  Only the request fields
the embedded handler logic reads are carried; the remaining `AReq`
fields are echoed verbatim by the source and play no role in any claim. -/

/-- Source `models.rs::ThreeDSRequestor` (the field the handlers read). -/
structure ThreeDSRequestor where
  three_ds_requestor_challenge_ind : String
deriving Repr, DecidableEq

/-- Source `models.rs::CardholderAccount` (the field the handlers read). -/
structure CardholderAccount where
  acct_number : String
deriving Repr, DecidableEq

/-- Source `models.rs::Merchant` (the field the handlers read). -/
structure Merchant where
  notification_url : String
deriving Repr, DecidableEq

/-- Source `models.rs::SdkEphemeralPublicKey`. -/
structure SdkEphemeralPublicKey where
  kty : String
  crv : String
  x : String
  y : String
deriving Repr, DecidableEq

/-- Source `models.rs::AuthenticateRequest` (fields the handlers read). -/
structure AuthenticateRequest where
  three_ds_server_trans_id : String
  sdk_trans_id : Option String
  device_channel : String
  three_ds_requestor : ThreeDSRequestor
  cardholder_account : CardholderAccount
  merchant : Merchant
  sdk_ephemeral_public_key : Option SdkEphemeralPublicKey
  kty : Option String
  crv : Option String
  x : Option String
  y : Option String
deriving Repr, DecidableEq

/-- Source `models.rs::AcsRenderingType`. -/
structure AcsRenderingType where
  acs_ui_template : String
  acs_interface : String
deriving Repr, DecidableEq

/-- Source `models.rs::ResultsRequest`. -/
structure ResultsRequest where
  acs_trans_id : String
  message_category : String
  eci : String
  message_type : String
  acs_rendering_type : AcsRenderingType
  ds_trans_id : String
  authentication_method : String
  authentication_type : String
  message_version : String
  sdk_trans_id : Option String
  interaction_counter : String
  authentication_value : String
  trans_status : String
  three_ds_server_trans_id : String
deriving Repr, DecidableEq

/-- Source `models.rs::ResultsResponse`. -/
structure ResultsResponse where
  ds_trans_id : String
  message_type : String
  three_ds_server_trans_id : String
  acs_trans_id : String
  sdk_trans_id : Option String
  results_status : String
  message_version : String
deriving Repr, DecidableEq

/-- Source `models.rs::ChallengeRequest`. -/
structure ChallengeRequest where
  message_type : String
  three_ds_server_trans_id : String
  acs_trans_id : String
  challenge_window_size : String
  message_version : String
deriving Repr, DecidableEq

/-- Source `models.rs::FinalResponse`. -/
structure FinalResponse where
  eci : String
  authentication_value : String
  three_ds_server_trans_id : String
  results_response : ResultsResponse
  results_request : ResultsRequest
  trans_status : String
deriving Repr, DecidableEq

/-! ## `src/state_store.rs` -/

/-- Source `state_store.rs::TransactionData`.  In the source
`sdk_ephemeral_public_key` holds the serde-JSON string of the SDK JWK;
here it holds the parsed JWK (the JSON codec is the external serde
layer). -/
structure TransactionData where
  authenticate_request : AuthenticateRequest
  acs_trans_id : String
  ds_trans_id : String
  sdk_trans_id : Option String
  results_request : Option ResultsRequest
  ephemeral_keys : Option EphemeralKeyPair
  redirect_url : Option String
  sdk_ephemeral_public_key : Option AcsEphemPubKey
deriving Repr, DecidableEq

/-- Source `state_store.rs::StateError`. -/
inductive StateError where
  | NotFound
  | Serialization (msg : String)
  | Redis (msg : String)
  | Pool (msg : String)
  | Connection (msg : String)
deriving Repr, DecidableEq

/-- The errors `with_retry` retries: `Redis` and `Pool`. -/
def StateError.isTransient : StateError → Bool
  | .Redis _ => true
  | .Pool _ => true
  | _ => false

/-- The Redis keyspace: canonical key to stored record and its remaining
TTL in seconds.  Values live in Redis as serde-JSON strings; the codec is
the external serde layer, so records are stored directly. -/
def RedisState := String → Option (TransactionData × Nat)

/-- Source `RedisStore::make_key`. -/
def make_key (keyPref k : String) : String := keyPref ++ ":" ++ k

/-- One iteration step of `RedisStore::with_retry`: `op attempt` is the
result of the `attempt`-th execution of the closure.  Returns the final
result and the list of back-off sleeps (milliseconds) performed. -/
def retryLoop {α : Type} (op : Nat → Except StateError α) :
    Nat → Nat → Except StateError α × List Nat
  | _, 0 => (.error (.Connection "unreachable"), [])
  | attempt, fuel + 1 =>
      match op attempt with
      | .ok r => (.ok r, [])
      | .error e =>
          if e.isTransient ∧ attempt < 3 then
            let rest := retryLoop op (attempt + 1) fuel
            (rest.1, 100 * attempt :: rest.2)
          else (.error e, [])

/-- Source `RedisStore::with_retry` with `MAX_RETRIES = 3`. -/
def with_retry {α : Type} (op : Nat → Except StateError α) :
    Except StateError α × List Nat :=
  retryLoop op 1 3

/-- One executed attempt of the closure inside `RedisStore::update`:
`EXISTS` on the made key, `NotFound` when absent, else `SETEX` with the
configured TTL. -/
def updateAttempt (st : RedisState) (ttlSeconds : Nat) (keyPref k : String)
    (v : TransactionData) : Except StateError RedisState :=
  let redisKey := make_key keyPref k
  if (st redisKey).isSome then
    .ok (fun k' => if k' == redisKey then some (v, ttlSeconds) else st k')
  else .error .NotFound

/-- Source `RedisStore::update`: the attempt closure run under
`with_retry`.  The deterministic backend is represented by the attempts
all seeing the same keyspace. -/
def RedisStore.update (st : RedisState) (ttlSeconds : Nat)
    (keyPref k : String) (v : TransactionData) :
    Except StateError RedisState × List Nat :=
  with_retry (fun _ => updateAttempt st ttlSeconds keyPref k v)

/-! ## `src/handlers.rs` -/

/-- HTTP responses the handlers build (payloads carry what the source
puts in them; 200-HTML carries the three template substitutions). -/
inductive HttpOut where
  | okJson (body : String)
  | okHtml (fallbackRedirectUrl threeDsServerTransId payEndpoint : String)
  | okJose (jwe : String)
  | found (location : String)
  | badRequest (error : String)
  | notFound (error : String)
  | internalError (error : String)
deriving Repr, DecidableEq

/-- Numeric HTTP status of a response. -/
def HttpOut.status : HttpOut → Nat
  | .okJson _ => 200
  | .okHtml _ _ _ => 200
  | .okJose _ => 200
  | .found _ => 302
  | .badRequest _ => 400
  | .notFound _ => 404
  | .internalError _ => 500

/-- Source `handlers.rs::generate_authentic_auth_value`: 20 CAVV bytes
(version `0x02`, method `0x01`, then `(i*17 + 13 + 0x4A) % 256` for
indices 2..19), standard-base64 encoded. -/
def generate_authentic_auth_value : String :=
  let cavv0 := List.replicate 20 0
  let cavv1 := (cavv0.set 0 0x02).set 1 0x01
  let cavv :=
    (List.range 18).foldl
      (fun v j => v.set (j + 2) (((j + 2) * 17 + 13 + 0x4A) % 256)) cavv1
  b64StdEncode cavv

/-- Source `handlers.rs::generate_failed_auth_value`. -/
def generate_failed_auth_value : String := "AAAAAAAAAAAAAAAAAAAAAA=="

/-- The OTP policy both challenge paths inline:
`if otp == "1234" { ("Y", "02", authentic) } else { ("N", "07", failed) }`. -/
def otpOutcome (otp : String) : String × String × String :=
  if otp == "1234" then ("Y", "02", generate_authentic_auth_value)
  else ("N", "07", generate_failed_auth_value)

/-- The `ARes` fields of `authenticate_handler` the claims are about
(the remaining response fields are constants echoed from the source). -/
structure AuthenticateOkFields where
  trans_status : String
  acs_challenge_mandated : String
  acs_operator_id : String
  acs_reference_number : String
  acs_url : Option String
deriving Repr, DecidableEq

/-- Outcome of `authenticate_handler`: a 400 for a mobile request
without `sdkTransId`, or the response fields plus the record handed to
`state.insert` (an insert failure only turns the response into a 500 and
writes nothing). -/
inductive AuthenticateOutcome where
  | badRequest (error : String)
  | ok (fields : AuthenticateOkFields) (stored : TransactionData)
deriving Repr, DecidableEq

/-- SDK ephemeral key ingestion of `authenticate_handler`: nested
`sdkEphemeralPublicKey` first, else the top-level `Kty`/`Crv`/`X`/`Y`
quadruple. -/
def extractSdkKey (req : AuthenticateRequest) : Option AcsEphemPubKey :=
  match req.sdk_ephemeral_public_key with
  | some k => some ⟨k.kty, k.crv, k.x, k.y⟩
  | none =>
      match req.kty, req.crv, req.x, req.y with
      | some kt, some cv, some xx, some yy => some ⟨kt, cv, xx, yy⟩
      | _, _, _, _ => none

/-- Source `handlers.rs::authenticate_handler`.  `acsTransId` and
`dsTransId` are the freshly minted UUIDv4s, `ephemGen` the result of
`generate_ephemeral_key_pair` (`none` = generation failed), `serverUrl`
the configured `http://host:port`. -/
def authenticate_handler (req : AuthenticateRequest)
    (acsTransId dsTransId : String) (ephemGen : Option EphemeralKeyPair)
    (serverUrl : String) : AuthenticateOutcome :=
  let isMobile := req.device_channel == "01"
  if isMobile && req.sdk_trans_id.isNone then
    .badRequest "sdkTransId is required for mobile flows (deviceChannel=01)"
  else
    let challengeInd := req.three_ds_requestor.three_ds_requestor_challenge_ind
    let cardNumber := req.cardholder_account.acct_number
    let shouldChallenge :=
      if challengeInd == "04" then true
      else if challengeInd == "05" then false
      else strEndsWith cardNumber "4001"
    let transStatus := if shouldChallenge then "C" else "Y"
    let acsChallengeMandated := if shouldChallenge then "Y" else "N"
    let acsPair :=
      if challengeInd == "05" then ("MOCK_ACS_NEW", "issuer2")
      else ("MOCK_ACS", "issuer1")
    let ephemeralKeys := if isMobile && shouldChallenge then ephemGen else none
    let sdkEphemeralPublicKey := if isMobile then extractSdkKey req else none
    let stored : TransactionData :=
      { authenticate_request := req
        acs_trans_id := acsTransId
        ds_trans_id := dsTransId
        sdk_trans_id := req.sdk_trans_id
        results_request := none
        ephemeral_keys := ephemeralKeys
        redirect_url := some req.merchant.notification_url
        sdk_ephemeral_public_key := sdkEphemeralPublicKey }
    .ok
      { trans_status := transStatus
        acs_challenge_mandated := acsChallengeMandated
        acs_operator_id := acsPair.1
        acs_reference_number := acsPair.2
        acs_url :=
          if shouldChallenge && !isMobile then
            some (serverUrl ++ "/processor/mock/acs/trigger-otp")
          else none }
      stored

/-- The abstract transaction map keyed by `threeDSServerTransID` (TTL
expiry removes a binding; an expired record reads as `none`). -/
def Store := String → Option TransactionData

/-- Outcome of `results_handler`. -/
inductive ResultsOutcome where
  | ok (resp : ResultsResponse)
  | badRequest (error : String)
deriving Repr, DecidableEq

/-- Source `handlers.rs::results_handler`: loads the record, overwrites
`results_request` with the inbound `RReq`, stores it back, answers with
an `RRes`.  A backend write failure surfaces as a 500 and leaves the
store unchanged; the pure store here always succeeds. -/
def results_handler (req : ResultsRequest) (store : Store) :
    ResultsOutcome × Store :=
  match store req.three_ds_server_trans_id with
  | some td =>
      let updated := { td with results_request := some req }
      (.ok
        { ds_trans_id := td.ds_trans_id
          message_type := "RRes"
          three_ds_server_trans_id := req.three_ds_server_trans_id
          acs_trans_id := td.acs_trans_id
          sdk_trans_id := td.sdk_trans_id
          results_status := "01"
          message_version := "2.2.0" },
       fun k => if k == req.three_ds_server_trans_id then some updated
                else store k)
  | none => (.badRequest "Transaction not found", store)

/-- The operations of the program that write the transaction store:
`authenticate_handler`'s `insert` and `results_handler`'s `update`
(both challenge endpoints write only through `results_handler`;
`StateStore::delete` has no caller). -/
inductive StoreOp where
  | auth (req : AuthenticateRequest) (acsTransId dsTransId : String)
      (ephemGen : Option EphemeralKeyPair) (serverUrl : String)
  | results (req : ResultsRequest)

/-- Apply one store-writing operation. -/
def applyOp (store : Store) : StoreOp → Store
  | .auth req a d e u =>
      match authenticate_handler req a d e u with
      | .ok _ stored =>
          fun k => if k == req.three_ds_server_trans_id then some stored
                   else store k
      | .badRequest _ => store
  | .results r => (results_handler r store).2

/-- Apply a sequence of store-writing operations. -/
def applyOps (ops : List StoreOp) (store : Store) : Store :=
  ops.foldl applyOp store

/-- Outcome of `final_handler`. -/
inductive FinalOutcome where
  | ok (resp : FinalResponse)
  | badRequest (error : String)
  | internalError (error : String)
deriving Repr, DecidableEq

/-- Source `handlers.rs::final_handler`.  `getResult` is the outcome of
`state.get(&three_ds_server_trans_id)` (retry exhaustion surfaces as the
error case). -/
def final_handler (threeDsServerTransId : String)
    (getResult : Except StateError (Option TransactionData)) : FinalOutcome :=
  match getResult with
  | .ok (some transactionData) =>
      match transactionData.results_request with
      | some resultsRequest =>
          .ok
            { eci := resultsRequest.eci
              authentication_value := resultsRequest.authentication_value
              three_ds_server_trans_id := threeDsServerTransId
              results_response :=
                { ds_trans_id := transactionData.ds_trans_id
                  message_type := "RRes"
                  three_ds_server_trans_id := threeDsServerTransId
                  acs_trans_id := transactionData.acs_trans_id
                  sdk_trans_id := transactionData.sdk_trans_id
                  results_status := "01"
                  message_version := "2.2.0" }
              results_request := resultsRequest
              trans_status := resultsRequest.trans_status }
      | none => .badRequest "Results not found for this transaction"
  | .ok none => .badRequest "Transaction not found"
  | .error _ => .internalError "Failed to retrieve transaction data"

/-- Source `handlers.rs::acs_verify_otp_handler`.  `queryRedirect` is
the `redirectUrl` query parameter, `getResult` the store lookup; the
second component is the `RReq` the handler feeds to `results_handler`
(whose success or failure it ignores). -/
def acs_verify_otp_handler (queryRedirect : Option String)
    (otp formTransId : String)
    (getResult : Except StateError (Option TransactionData)) :
    HttpOut × Option ResultsRequest :=
  let redirectUrl := queryRedirect.getD "https://juspay.api.in.end"
  let errorRedirect := redirectUrl ++ "?transStatus=U&error=processing_error"
  match uuidParse formTransId with
  | none => (.found errorRedirect, none)
  | some threeDsServerTransId =>
      match getResult with
      | .ok (some transactionData) =>
          let tea := otpOutcome otp
          let resultsRequest : ResultsRequest :=
            { acs_trans_id := transactionData.acs_trans_id
              message_category := "01"
              eci := tea.2.1
              message_type := "RReq"
              acs_rendering_type := { acs_ui_template := "01", acs_interface := "01" }
              ds_trans_id := transactionData.ds_trans_id
              authentication_method := "02"
              authentication_type := "02"
              message_version := "2.2.0"
              sdk_trans_id := transactionData.sdk_trans_id
              interaction_counter := "01"
              authentication_value := tea.2.2
              trans_status := tea.1
              three_ds_server_trans_id := threeDsServerTransId }
          (.found (redirectUrl ++ "?transStatus=" ++ tea.1 ++
              "&threeDSServerTransID=" ++ threeDsServerTransId ++
              "&eci=" ++ tea.2.1 ++
              "&authenticationValue=" ++ urlencode tea.2.2),
           some resultsRequest)
      | .ok none => (.found errorRedirect, none)
      | .error _ => (.found errorRedirect, none)

/-- Source `handlers.rs::acs_trigger_otp_handler`.  `creqParse` is the
serde parse of the `creq` form field, `getResult` the store lookup
(consulted only when the query parameter is absent), `serverUrl` the
configured `http://host:port`. -/
def acs_trigger_otp_handler (queryRedirect : Option String)
    (creqParse : Option ChallengeRequest)
    (getResult : Except StateError (Option TransactionData))
    (serverUrl : String) : HttpOut :=
  match creqParse with
  | none => .badRequest "Invalid JSON in challenge request"
  | some challengeRequest =>
      let redirectUrl :=
        match queryRedirect with
        | some q => q
        | none =>
            match getResult with
            | .ok (some transactionData) =>
                transactionData.redirect_url.getD "https://juspay.api.in.end"
            | _ => "https://juspay.api.in.end"
      let payEndpoint := serverUrl ++ "/processor/mock/acs/verify-otp?redirectUrl=" ++
        urlencode redirectUrl
      .okHtml serverUrl challengeRequest.three_ds_server_trans_id payEndpoint

/-- The fields of the decrypted `CReq` that `challenge_handler` reads
(`challengeDataEntry` carries `as_str().unwrap_or("")` applied to a
non-string value as `some ""`). -/
structure CReqFields where
  challengeDataEntry : Option String
  sdkCounterStoA : Option String
  messageVersion : Option String

/-- Source `handlers.rs::challenge_handler`.  Oracles for the external
effects: `bodyIsJsonObject` is whether a brace-delimited body parses as
JSON, `findResult` is `state.find_by_acs_trans_id`, `payloadParse` is
the serde parse of the decrypted plaintext, `respIv` is the random IV
for the response encryption.  Everything else — header decoding, kid
validation, platform detection, key derivation, JWE decryption and
encryption — is computed by the embedded `crypto.rs` functions.  The
second component is the `RReq` handed to `results_handler` on the OTP
branch. -/
def challenge_handler (jweData : String) (bodyIsJsonObject : Bool)
    (findResult : Except StateError (Option (String × TransactionData)))
    (payloadParse : Bytes → Option CReqFields) (respIv : Bytes) :
    HttpOut × Option ResultsRequest :=
  if strStartsWith (strTrim jweData) "\x7b" && strEndsWith (strTrim jweData) "\x7d"
      && bodyIsJsonObject then
    (.badRequest "Received JSON error response instead of JWE", none)
  else
    let parts := strSplitOnDot jweData
    if parts.length != 5 then (.badRequest "Invalid JWE format", none)
    else
      match b64UrlDecode (parts.getD 0 "") with
      | none => (.badRequest "Invalid JWE header encoding", none)
      | some headerData =>
        match jsonFlatParse (String.mk (headerData.map Char.ofNat)) with
        | none => (.badRequest "Invalid JWE header JSON", none)
        | some headerJson =>
          match jsonGet headerJson "kid" with
          | none => (.badRequest "Missing kid in JWE header", none)
          | some acsTransIdStr =>
            match uuidParse acsTransIdStr with
            | none => (.badRequest ("Invalid kid format: " ++ acsTransIdStr), none)
            | some _acsTransId =>
              match findResult with
              | .error _ => (.internalError "Internal server error", none)
              | .ok none => (.notFound "Transaction not found", none)
              | .ok (some found) =>
                let threeDsServerTransId := found.1
                let transactionData := found.2
                match transactionData.sdk_ephemeral_public_key,
                    transactionData.ephemeral_keys with
                | some sdkPublicKey, some ourKeys =>
                  let encValue := (jsonGet headerJson "enc").getD "unknown"
                  match
                    (if encValue == "A128CBC-HS256" then some "android"
                     else if encValue == "A128GCM" then some "ios"
                     else none)
                  with
                  | none => (.badRequest "Unsupported encryption algorithm", none)
                  | some platform =>
                    match calculate_derived_key sdkPublicKey
                        ourKeys.private_key platform with
                    | .error _ => (.badRequest "Failed to derive shared key", none)
                    | .ok derivedKey =>
                      match decrypt_challenge_request jweData derivedKey with
                      | .error _ =>
                          (.badRequest "Failed to decrypt challenge request", none)
                      | .ok plaintext =>
                        match payloadParse plaintext with
                        | none =>
                            (.badRequest "Failed to decrypt challenge request", none)
                        | some challengeRequest =>
                          let sdkTransIdStr :=
                            transactionData.sdk_trans_id.getD ""
                          let branch :=
                            match challengeRequest.challengeDataEntry with
                            | some userOtp =>
                                let tea := otpOutcome userOtp
                                let messageVersion :=
                                  challengeRequest.messageVersion.getD "2.2.0"
                                let resultsRequest : ResultsRequest :=
                                  { acs_trans_id := transactionData.acs_trans_id
                                    message_category := "01"
                                    eci := tea.2.1
                                    message_type := "RReq"
                                    acs_rendering_type :=
                                      { acs_ui_template := "01", acs_interface := "01" }
                                    ds_trans_id := transactionData.ds_trans_id
                                    authentication_method := "02"
                                    authentication_type := "02"
                                    message_version := messageVersion
                                    sdk_trans_id := transactionData.sdk_trans_id
                                    interaction_counter := "01"
                                    authentication_value := tea.2.2
                                    trans_status := tea.1
                                    three_ds_server_trans_id := threeDsServerTransId }
                                (mkJsonObj
                                  [("acsCounterAtoS", "001"),
                                   ("acsTransID", acsTransIdStr),
                                   ("challengeCompletionInd", "Y"),
                                   ("messageType", "CRes"),
                                   ("messageVersion", messageVersion),
                                   ("sdkTransID", sdkTransIdStr),
                                   ("threeDSServerTransID", threeDsServerTransId),
                                   ("transStatus", tea.1)],
                                 some resultsRequest)
                            | none =>
                                (mkJsonObj
                                  [("acsCounterAtoS", "000"),
                                   ("acsTransID", acsTransIdStr),
                                   ("acsUiType", "01"),
                                   ("challengeCompletionInd", "N"),
                                   ("challengeInfoHeader", "Authentication Required"),
                                   ("challengeInfoLabel", "Enter OTP:"),
                                   ("messageType", "CRes"),
                                   ("messageVersion", "2.2.0"),
                                   ("sdkTransID", sdkTransIdStr),
                                   ("submitAuthenticationLabel", "Submit"),
                                   ("threeDSServerTransID", threeDsServerTransId)],
                                 none)
                          let platform2 :=
                            if encValue == "A128CBC-HS256" then "android"
                            else if encValue == "A128GCM" then "ios"
                            else "android"
                          ((match encrypt_challenge_response (strBytes branch.1)
                              acsTransIdStr derivedKey platform2 respIv with
                            | .error _ => HttpOut.internalError "Failed to encrypt response"
                            | .ok jwe => HttpOut.okJose jwe),
                           branch.2)
                | _, _ => (.badRequest "Missing ephemeral keys for ECDH", none)

/-! ## Spec-side reconstructions

Definitions written from the specification's words, used to compare the
embedded code against the claimed formulas. -/

/-- Spec §4.1.2: `OtherInfo = algorithmID ‖ partyUInfo ‖ partyVInfo ‖
suppPubInfo` with four zero bytes, four zero bytes, big-endian length
plus ASCII reference number, and big-endian 256. -/
def specOtherInfo (ref : String) : Bytes :=
  [0, 0, 0, 0] ++ [0, 0, 0, 0] ++ (u32be ref.length ++ strBytes ref) ++ u32be 256

/-- Spec §4.1.2 step 5: `DerivedKey = SHA-256(0x00000001 ‖ Z ‖ OtherInfo)`. -/
def specDerivedKey (z : Bytes) (ref : String) : Bytes :=
  sha256 ([0, 0, 0, 1] ++ z ++ specOtherInfo ref)

/-- Spec §4.3.4: the 20-byte CAVV payload
`{0x02, 0x01, then 18 bytes b[i] = (17·i + 13 + 0x4A) mod 256}`. -/
def specCavv : Bytes :=
  0x02 :: 0x01 :: (List.range 18).map (fun k => ((k + 2) * 17 + 13 + 0x4A) % 256)

/-! ## Concrete inputs for witnesses and counterexamples

The SDK JWK below is the P-256 base point and the ACS scalar is 1, so
the ECDH shared secret is the base point's x-coordinate. -/

deriving instance DecidableEq for Except

/-- The P-256 base point as an SDK JWK (base64url coordinates). -/
def witSdkJwk : AcsEphemPubKey :=
  { kty := "EC", crv := "P-256",
    x := "axfR8uEsQkf4vOblY6RA8ncDfYEt6zOg9KE5RdiYwpY",
    y := "T-NC4v4af5uO5-tKfA-eFivOM1drMV7Oy7ZAaDe_UfU" }

/-- The ACS ephemeral scalar 1, base64url. -/
def witPrivKey : String := "AAAAAAAAAAAAAAAAAAAAAAAAAAAAAAAAAAAAAAAAAAE"

/-- A mobile challenge `AReq` for the witnesses. -/
def witReq : AuthenticateRequest :=
  { three_ds_server_trans_id := "99999999-8888-7777-6666-555555555555"
    sdk_trans_id := some "aaaaaaaa-bbbb-cccc-dddd-eeeeeeeeffff"
    device_channel := "01"
    three_ds_requestor := { three_ds_requestor_challenge_ind := "04" }
    cardholder_account := { acct_number := "4000000000004001" }
    merchant := { notification_url := "https://merchant.example/notify" }
    sdk_ephemeral_public_key := none
    kty := none, crv := none, x := none, y := none }

/-- A stored mobile-challenge transaction record for the witnesses. -/
def witTd : TransactionData :=
  { authenticate_request := witReq
    acs_trans_id := "11111111-2222-3333-4444-555555555555"
    ds_trans_id := "21111111-2222-3333-4444-555555555555"
    sdk_trans_id := some "aaaaaaaa-bbbb-cccc-dddd-eeeeeeeeffff"
    results_request := none
    ephemeral_keys := some { private_key := witPrivKey, public_key := witSdkJwk }
    redirect_url := some "https://merchant.example/notify"
    sdk_ephemeral_public_key := some witSdkJwk }

/-- The Android derived key for `witSdkJwk`/`witPrivKey` (value of
`calculate_derived_key witSdkJwk witPrivKey "android"`). -/
def witDk : Bytes :=
  [42, 36, 236, 25, 126, 240, 203, 219, 183, 9, 104, 71, 87, 240, 134, 173,
   62, 14, 7, 128, 184, 103, 127, 228, 37, 30, 172, 157, 63, 1, 77, 65]

/-- An inbound Android `CReq` JWE for the stored record: the encryption
of `{"messageType":"CReq"}` under `witDk` with IV `00..0f` and kid
`11111111-2222-3333-4444-555555555555`. -/
def witCreqJwe : String :=
  "eyJhbGciOiJkaXIiLCJlbmMiOiJBMTI4Q0JDLUhTMjU2Iiwia2lkIjoiMTExMTExMTEtMjIyMi0zMzMzLTQ0NDQtNTU1NTU1NTU1NTU1In0..AAECAwQFBgcICQoLDA0ODw.e0bV-xQ-4c-QqXQiXW4DNGQ6pkniJ9aPyrRBEda9t-I.r3f2QTI6BNc_WHWJnITKFQ"

/-- Serde-parse oracle: the decrypted `CReq` carries OTP `"1234"`. -/
def witParse : Bytes → Option CReqFields :=
  fun _ => some { challengeDataEntry := some "1234", sdkCounterStoA := some "001",
                  messageVersion := some "2.2.0" }

/-- The random IV for the response encryption in the witnesses. -/
def witRespIv : Bytes := (List.range 16).map (fun i => 100 + i)

/-- The `find_by_acs_trans_id` result for the witnesses. -/
def witFind : Except StateError (Option (String × TransactionData)) :=
  .ok (some ("99999999-8888-7777-6666-555555555555", witTd))

/-- The `RReq` the witness challenge run submits. -/
def witRr : ResultsRequest :=
  { acs_trans_id := "11111111-2222-3333-4444-555555555555"
    message_category := "01"
    eci := "02"
    message_type := "RReq"
    acs_rendering_type := { acs_ui_template := "01", acs_interface := "01" }
    ds_trans_id := "21111111-2222-3333-4444-555555555555"
    authentication_method := "02"
    authentication_type := "02"
    message_version := "2.2.0"
    sdk_trans_id := some "aaaaaaaa-bbbb-cccc-dddd-eeeeeeeeffff"
    interaction_counter := "01"
    authentication_value := "AgF5ipusvc7f8AESIzRFVmd4iZo="
    trans_status := "Y"
    three_ds_server_trans_id := "99999999-8888-7777-6666-555555555555" }

/-- The JWE the witness challenge run answers with. -/
def witCresJwe : String :=
  "eyJhbGciOiJkaXIiLCJlbmMiOiJBMTI4Q0JDLUhTMjU2Iiwia2lkIjoiMTExMTExMTEtMjIyMi0zMzMzLTQ0NDQtNTU1NTU1NTU1NTU1In0..ZGVmZ2hpamtsbW5vcHFycw.S_w5ZVT4raX0DB0y-uM0xs8Hp-S0R5UMU_VAwfN3MExAbdA9aiDtBCmki89R2o0ylTtXzuf-nHgPpnUMg3jgTgMWDUxv_j-Mk7XVjDKq45eXdVk02wibvassTr7oQYkVIudDoHbVohGxGwl4j57hUu1rxLhPoU6zwhSQ8MC1iMkBIGAiy0SZXZdJQN6DQvgmkSGvFsWlESR2pKY6OA9GL4clGhSVzAXUpqE5Of3xWwUwZryOim6wuclHpcRyELs4yGN4U94wzH8G93ONXagQzuYuzIbpwOiT_8PVUOPiPGLhJn44u30U0A9RaGtCez9i1fPaSJkgWXiV3QLVl9yOBvaQT0e33CWvi0DPV-pHbr0uuPXpdOBZhpYDrak00WWD.tXG0Btj7FhHudwhRDb7GzA"

/-- C1 failing input: a derived key whose two 16-byte halves differ. -/
def c1Key : Bytes := List.range 32

/-- C1: plaintext bytes of the JSON message, the two-byte `\x7b\x7d`. -/
def c1Msg : Bytes := [123, 125]

/-- C1: 12-byte GCM IV. -/
def c1IvIos : Bytes := List.range 12

/-- C1: 16-byte CBC IV for the Android contrast. -/
def c1IvAndroid : Bytes := List.range 16

/-- C1: the kid placed in the protected header. -/
def c1Kid : String := "33333333-4444-5555-6666-777777777777"

/-- C5 counterexample: a browser `AReq`. -/
def cexReq : AuthenticateRequest :=
  { three_ds_server_trans_id := "11111111-1111-1111-1111-111111111111"
    sdk_trans_id := none
    device_channel := "02"
    three_ds_requestor := { three_ds_requestor_challenge_ind := "01" }
    cardholder_account := { acct_number := "4000000000004001" }
    merchant := { notification_url := "https://merchant.example/notify" }
    sdk_ephemeral_public_key := none
    kty := none, crv := none, x := none, y := none }

/-- C5 counterexample: the `RReq` that terminates the challenge. -/
def cexRr : ResultsRequest :=
  { acs_trans_id := "aaaa1111-1111-1111-1111-111111111111"
    message_category := "01"
    eci := "02"
    message_type := "RReq"
    acs_rendering_type := { acs_ui_template := "01", acs_interface := "01" }
    ds_trans_id := "dddd1111-1111-1111-1111-111111111111"
    authentication_method := "02"
    authentication_type := "02"
    message_version := "2.2.0"
    sdk_trans_id := none
    interaction_counter := "01"
    authentication_value := "AgF5ipusvc7f8AESIzRFVmd4iZo="
    trans_status := "Y"
    three_ds_server_trans_id := "11111111-1111-1111-1111-111111111111" }

/-- C5 counterexample: the authenticate operation on `cexReq`. -/
def cexAuthOp : StoreOp :=
  .auth cexReq "aaaa1111-1111-1111-1111-111111111111"
    "dddd1111-1111-1111-1111-111111111111" none "http://127.0.0.1:8080"

/-- The record `cexAuthOp` writes (fresh, `resultsRequest = none`). -/
def cexTd0 : TransactionData :=
  { authenticate_request := cexReq
    acs_trans_id := "aaaa1111-1111-1111-1111-111111111111"
    ds_trans_id := "dddd1111-1111-1111-1111-111111111111"
    sdk_trans_id := none
    results_request := none
    ephemeral_keys := none
    redirect_url := some "https://merchant.example/notify"
    sdk_ephemeral_public_key := none }

/-- A record with `resultsRequest` present (for C8's witness). -/
def c8Td : TransactionData := { cexTd0 with results_request := some cexRr }

/-- A parsed `creq` for C10's witness. -/
def c10Creq : ChallengeRequest :=
  { message_type := "CReq"
    three_ds_server_trans_id := "11111111-1111-1111-1111-111111111111"
    acs_trans_id := "aaaa1111-1111-1111-1111-111111111111"
    challenge_window_size := "01"
    message_version := "2.2.0" }

/-- A store with results already set (for C5's witness). -/
def c5WitStore : Store :=
  fun k => if k == "11111111-1111-1111-1111-111111111111" then some c8Td else none

/-- A one-record Redis keyspace (for C6's witness). -/
def c6Store : RedisState :=
  fun k => if k == "3ds:txn:11111111-1111-1111-1111-111111111111"
           then some (cexTd0, 120) else none

/-- The decoded protected header bytes of `witCreqJwe` (for C9). -/
def c9HeaderData : Bytes :=
  strBytes (jweHeaderStr "A128CBC-HS256" "11111111-2222-3333-4444-555555555555")

/-- The parsed protected header of `witCreqJwe` (for C9). -/
def c9HeaderJson : List (String × String) :=
  [("alg", "dir"), ("enc", "A128CBC-HS256"),
   ("kid", "11111111-2222-3333-4444-555555555555")]

/-- A JWE protected header carrying the unsupported enc `A192GCM`. -/
def c9BadHeader : String :=
  jweHeaderStr "A192GCM" "11111111-2222-3333-4444-555555555555"

/-- A five-part JWE with the unsupported enc `A192GCM` (for C9). -/
def c9BadJwe : String := b64UrlEncode (strBytes c9BadHeader) ++ "..AA.AA.AA"

/-- The parsed protected header of `c9BadJwe`. -/
def c9BadHeaderJson : List (String × String) :=
  [("alg", "dir"), ("enc", "A192GCM"),
   ("kid", "11111111-2222-3333-4444-555555555555")]

/-- The P-256 base point x-coordinate. -/
def p256GxN : Nat :=
  0x6b17d1f2e12c4247f8bce6e563a440f277037d812deb33a0f4a13945d898c296

/-- The P-256 base point y-coordinate. -/
def p256GyN : Nat :=
  0x4fe342e2fe1a7f9b8ee7eb4a7c0f9e162bce33576b315ececbb6406837bf51f5

/-! ## Theorems -/

set_option maxRecDepth 100000
set_option maxHeartbeats 4000000

/-- Claim C7: every request to the browser verify-OTP endpoint — with a
malformed `threeDSServerTransID`, a missing or expired record, or a
store error — gets an HTTP 302 and never a 5xx; on each of those
internal failures the Location is the redirect URL with
`transStatus=U&error=processing_error` appended. -/
theorem c7_verify_otp_redirects (queryRedirect : Option String)
    (otp formTransId : String)
    (getResult : Except StateError (Option TransactionData)) :
    ((acs_verify_otp_handler queryRedirect otp formTransId getResult).1.status = 302) ∧
    ((uuidParse formTransId = none ∨ getResult = .ok none ∨
        (∃ e, getResult = .error e)) →
      (acs_verify_otp_handler queryRedirect otp formTransId getResult).1 =
        .found ((queryRedirect.getD "https://juspay.api.in.end") ++
          "?transStatus=U&error=processing_error")) := by
  unfold acs_verify_otp_handler
  rcases h : uuidParse formTransId with _ | u <;>
    rcases getResult with e | (_ | td) <;>
      simp [HttpOut.status]

/-- Witness for C7 at a malformed transaction id. -/
theorem c7_verify_otp_redirects_witness :
    (acs_verify_otp_handler (some "https://m.example") "1234" "not-a-uuid"
      (.ok none)).1 =
      .found (((some "https://m.example").getD "https://juspay.api.in.end") ++
        "?transStatus=U&error=processing_error") ∧
    (acs_verify_otp_handler (some "https://m.example") "1234" "not-a-uuid"
      (.ok none)).1.status = 302 := by
  have h := c7_verify_otp_redirects (some "https://m.example") "1234" "not-a-uuid"
    (.ok none)
  exact ⟨h.2 (Or.inr (Or.inl rfl)), h.1⟩

/-- Claim C8: `final_handler` answers 400 `Results not found` when the
stored record has no `resultsRequest`, and otherwise the response's
`eci`, `authenticationValue` and `transStatus` are exactly the stored
ones. -/
theorem c8_final_results (threeDsServerTransId : String)
    (getResult : Except StateError (Option TransactionData))
    (td : TransactionData) :
    (getResult = .ok (some td) → td.results_request = none →
      final_handler threeDsServerTransId getResult =
        .badRequest "Results not found for this transaction") ∧
    (∀ rr, getResult = .ok (some td) → td.results_request = some rr →
      ∃ resp, final_handler threeDsServerTransId getResult = .ok resp ∧
        resp.eci = rr.eci ∧
        resp.authentication_value = rr.authentication_value ∧
        resp.trans_status = rr.trans_status) := by
  constructor
  · intro hget hnone
    subst hget
    simp [final_handler, hnone]
  · intro rr hget hsome
    subst hget
    simp only [final_handler, hsome]
    exact ⟨_, rfl, rfl, rfl, rfl⟩

/-- Witness for C8: a record with results present and one without. -/
theorem c8_final_results_witness :
    final_handler "11111111-1111-1111-1111-111111111111" (.ok (some cexTd0)) =
      .badRequest "Results not found for this transaction" ∧
    ∃ resp,
      final_handler "11111111-1111-1111-1111-111111111111" (.ok (some c8Td)) =
        .ok resp ∧
      resp.eci = cexRr.eci ∧
      resp.authentication_value = cexRr.authentication_value ∧
      resp.trans_status = cexRr.trans_status := by
  constructor
  · exact (c8_final_results "11111111-1111-1111-1111-111111111111"
      (.ok (some cexTd0)) cexTd0).1 rfl rfl
  · exact (c8_final_results "11111111-1111-1111-1111-111111111111"
      (.ok (some c8Td)) c8Td).2 cexRr rfl rfl

/-- Claim C10: the browser trigger-OTP endpoint returns 200 HTML even
when the record is absent, expired or the store lookup errors; the
redirect substituted into the page follows the priority query parameter
→ stored `redirectUrl` → constant fallback; only a `creq` that fails to
parse yields a 400. -/
theorem c10_trigger_otp_html (queryRedirect : Option String)
    (creqParse : Option ChallengeRequest)
    (getResult : Except StateError (Option TransactionData))
    (serverUrl : String) :
    (creqParse = none →
      acs_trigger_otp_handler queryRedirect creqParse getResult serverUrl =
        .badRequest "Invalid JSON in challenge request") ∧
    (∀ cr, creqParse = some cr →
      (acs_trigger_otp_handler queryRedirect creqParse getResult serverUrl).status
          = 200 ∧
      acs_trigger_otp_handler queryRedirect creqParse getResult serverUrl =
        .okHtml serverUrl cr.three_ds_server_trans_id
          (serverUrl ++ "/processor/mock/acs/verify-otp?redirectUrl=" ++
            urlencode
              (match queryRedirect with
               | some q => q
               | none =>
                   match getResult with
                   | .ok (some td) =>
                       td.redirect_url.getD "https://juspay.api.in.end"
                   | _ => "https://juspay.api.in.end"))) := by
  constructor
  · intro h
    subst h
    rfl
  · intro cr h
    subst h
    exact ⟨rfl, rfl⟩

/-- Witness for C10: store lookup errors, yet 200 HTML with the
fallback redirect. -/
theorem c10_trigger_otp_html_witness :
    (acs_trigger_otp_handler none (some c10Creq) (.error (.Redis "down"))
        "http://h:1").status = 200 ∧
    acs_trigger_otp_handler none (some c10Creq) (.error (.Redis "down"))
        "http://h:1" =
      .okHtml "http://h:1" c10Creq.three_ds_server_trans_id
        ("http://h:1" ++ "/processor/mock/acs/verify-otp?redirectUrl=" ++
          urlencode "https://juspay.api.in.end") := by
  have h := (c10_trigger_otp_html none (some c10Creq) (.error (.Redis "down"))
    "http://h:1").2 c10Creq rfl
  exact ⟨h.1, h.2⟩

/-- Claim C2: `authenticate_handler` decides challenge iff
`challengeInd = "04"`, or `challengeInd ∉ {"04","05"}` and the PAN ends
with `"4001"`; challenge maps to `transStatus="C"` /
`acsChallengeMandated="Y"`, frictionless to `"Y"` / `"N"`; and for
`challengeInd ∈ {"04","05"}` the status is independent of the account
number. -/
theorem c2_challenge_decision (req : AuthenticateRequest)
    (acsTransId dsTransId serverUrl : String)
    (ephemGen : Option EphemeralKeyPair) (fields : AuthenticateOkFields)
    (stored : TransactionData)
    (h : authenticate_handler req acsTransId dsTransId ephemGen serverUrl =
      .ok fields stored) :
    (fields.trans_status = "C" ↔
      (req.three_ds_requestor.three_ds_requestor_challenge_ind = "04" ∨
        (req.three_ds_requestor.three_ds_requestor_challenge_ind ≠ "04" ∧
         req.three_ds_requestor.three_ds_requestor_challenge_ind ≠ "05" ∧
         strEndsWith req.cardholder_account.acct_number "4001" = true))) ∧
    (fields.trans_status = "C" → fields.acs_challenge_mandated = "Y") ∧
    (fields.trans_status = "Y" → fields.acs_challenge_mandated = "N") ∧
    (fields.trans_status = "C" ∨ fields.trans_status = "Y") ∧
    (req.three_ds_requestor.three_ds_requestor_challenge_ind = "04" →
      fields.trans_status = "C") ∧
    (req.three_ds_requestor.three_ds_requestor_challenge_ind = "05" →
      fields.trans_status = "Y") := by
  by_cases hm : (req.device_channel == "01" && req.sdk_trans_id.isNone) = true
  · simp [authenticate_handler, hm] at h
  · by_cases h04 : req.three_ds_requestor.three_ds_requestor_challenge_ind = "04"
    · simp [authenticate_handler, hm, h04] at h
      obtain ⟨hA, hB⟩ := h
      subst hA
      simp [h04]
    · by_cases h05 :
        req.three_ds_requestor.three_ds_requestor_challenge_ind = "05"
      · simp [authenticate_handler, hm, h04, h05] at h
        obtain ⟨hA, hB⟩ := h
        subst hA
        simp [h04, h05]
      · by_cases hend :
          strEndsWith req.cardholder_account.acct_number "4001" = true
        · simp [authenticate_handler, hm, h04, h05, hend] at h
          obtain ⟨hA, hB⟩ := h
          subst hA
          simp [h04, h05, hend]
        · simp [authenticate_handler, hm, h04, h05, hend] at h
          obtain ⟨hA, hB⟩ := h
          subst hA
          simp [h04, h05, hend]

/-- Witness for C2: `challengeInd = "05"` with a `4001` PAN is
frictionless (`transStatus = "Y"`). -/
theorem c2_challenge_decision_witness :
    (authenticate_handler
      { cexReq with three_ds_requestor := { three_ds_requestor_challenge_ind := "05" } }
      "a" "d" none "http://h:1" =
      AuthenticateOutcome.ok
        { trans_status := "Y", acs_challenge_mandated := "N"
          acs_operator_id := "MOCK_ACS_NEW", acs_reference_number := "issuer2"
          acs_url := none }
        { authenticate_request :=
            { cexReq with three_ds_requestor := { three_ds_requestor_challenge_ind := "05" } }
          acs_trans_id := "a", ds_trans_id := "d", sdk_trans_id := none
          results_request := none, ephemeral_keys := none
          redirect_url := some "https://merchant.example/notify"
          sdk_ephemeral_public_key := none }) ∧
    "Y" = "Y" := by
  refine ⟨by decide, ?_⟩
  have h := c2_challenge_decision
    { cexReq with three_ds_requestor := { three_ds_requestor_challenge_ind := "05" } }
    "a" "d" "http://h:1" none
    { trans_status := "Y", acs_challenge_mandated := "N"
      acs_operator_id := "MOCK_ACS_NEW", acs_reference_number := "issuer2"
      acs_url := none }
    { authenticate_request :=
        { cexReq with three_ds_requestor := { three_ds_requestor_challenge_ind := "05" } }
      acs_trans_id := "a", ds_trans_id := "d", sdk_trans_id := none
      results_request := none, ephemeral_keys := none
      redirect_url := some "https://merchant.example/notify"
      sdk_ephemeral_public_key := none }
    (by decide)
  exact h.2.2.2.2.2 rfl

/-- Claim C6: `RedisStore::update` returns `NotFound` for an absent key
and otherwise rebinds the key with the TTL refreshed; `with_retry`
retries only transient (Redis/pool) errors, up to 3 attempts with
sleeps of `100·attempt` ms, and returns `NotFound` and serialisation
errors immediately. -/
theorem c6_update_and_retry :
    (∀ (st : RedisState) (ttl : Nat) (keyPref k : String) (v : TransactionData),
      st (make_key keyPref k) = none →
        RedisStore.update st ttl keyPref k v = (.error .NotFound, [])) ∧
    (∀ (st : RedisState) (ttl : Nat) (keyPref k : String) (v : TransactionData),
      (st (make_key keyPref k)).isSome = true →
      ∃ st', RedisStore.update st ttl keyPref k v = (.ok st', []) ∧
        st' (make_key keyPref k) = some (v, ttl) ∧
        ∀ k', k' ≠ make_key keyPref k → st' k' = st k') ∧
    (StateError.isTransient .NotFound = false) ∧
    (∀ m, StateError.isTransient (.Serialization m) = false) ∧
    (∀ m, StateError.isTransient (.Redis m) = true ∧
      StateError.isTransient (.Pool m) = true) ∧
    (∀ {α : Type} (op : Nat → Except StateError α),
      (∀ r, op 1 = .ok r → with_retry op = (.ok r, [])) ∧
      (∀ e, op 1 = .error e → e.isTransient = false →
        with_retry op = (.error e, [])) ∧
      (∀ e r, op 1 = .error e → e.isTransient = true → op 2 = .ok r →
        with_retry op = (.ok r, [100])) ∧
      (∀ e e', op 1 = .error e → e.isTransient = true → op 2 = .error e' →
        e'.isTransient = false → with_retry op = (.error e', [100])) ∧
      (∀ e e', op 1 = .error e → e.isTransient = true → op 2 = .error e' →
        e'.isTransient = true → with_retry op = (op 3, [100, 200]))) := by
  refine ⟨?_, ?_, rfl, fun m => rfl, fun m => ⟨rfl, rfl⟩, ?_⟩
  · intro st ttl keyPref k v h
    simp [RedisStore.update, with_retry, retryLoop, updateAttempt, h,
      StateError.isTransient]
  · intro st ttl keyPref k v h
    refine ⟨fun k' => if k' == make_key keyPref k then some (v, ttl) else st k',
      ?_, ?_, ?_⟩
    · simp [RedisStore.update, with_retry, retryLoop, updateAttempt, h]
    · simp
    · intro k' hk'
      simp [hk']
  · intro α op
    refine ⟨?_, ?_, ?_, ?_, ?_⟩
    · intro r h1
      simp [with_retry, retryLoop, h1]
    · intro e h1 ht
      simp [with_retry, retryLoop, h1, ht]
    · intro e r h1 ht h2
      simp [with_retry, retryLoop, h1, ht, h2]
    · intro e e' h1 ht h2 ht'
      simp [with_retry, retryLoop, h1, ht, h2, ht']
    · intro e e' h1 ht h2 ht'
      rcases h3 : op 3 with e3 | r3 <;>
        simp [with_retry, retryLoop, h1, ht, h2, ht', h3]

/-- Witness for C6: a concrete present key rebinds with a fresh TTL,
an absent one is `NotFound`, and one transient failure then success
sleeps once. -/
theorem c6_update_and_retry_witness :
    RedisStore.update c6Store 300 "3ds:txn" "22222222-2222-2222-2222-222222222222"
      cexTd0 = (.error .NotFound, []) ∧
    (RedisStore.update c6Store 300 "3ds:txn" "11111111-1111-1111-1111-111111111111"
      cexTd0).2 = [] ∧
    with_retry (fun attempt =>
      if attempt == 1 then (.error (.Redis "conn") : Except StateError Nat)
      else .ok 7) = (.ok 7, [100]) := by
  refine ⟨?_, ?_, ?_⟩
  · exact (c6_update_and_retry.1)
      c6Store 300 "3ds:txn" "22222222-2222-2222-2222-222222222222" cexTd0
      (by decide)
  · obtain ⟨st', hst', h2, h3⟩ := (c6_update_and_retry.2.1)
      c6Store 300 "3ds:txn" "11111111-1111-1111-1111-111111111111" cexTd0
      (by decide)
    rw [hst']
  · exact (c6_update_and_retry.2.2.2.2.2
      (fun attempt =>
        if attempt == 1 then (.error (.Redis "conn") : Except StateError Nat)
        else .ok 7)).2.2.1 (.Redis "conn") 7 rfl rfl rfl

/-- Claim C5 counterexample: after authenticate and a results write, a
replayed authenticate with the same `threeDSServerTransID` stores the
record with `resultsRequest` cleared back to `None`, so a later write
of the program does clear it. -/
theorem c5_counterexample :
    (applyOps [cexAuthOp, .results cexRr] (fun _ => none)
        "11111111-1111-1111-1111-111111111111" =
      some { cexTd0 with results_request := some cexRr }) ∧
    (applyOps [cexAuthOp, .results cexRr, cexAuthOp] (fun _ => none)
        "11111111-1111-1111-1111-111111111111" = some cexTd0) ∧
    cexTd0.results_request = none := by
  refine ⟨by decide, by decide, rfl⟩

/-- Claim C5 (amended): across any sequence of store-writing operations
that contains no authenticate insert under the given key, a record
whose `resultsRequest` is set keeps it set — every results write stores
a `Some`. -/
theorem c5_results_write_once (ops : List StoreOp) (s : Store) (id : String)
    (hops : ∀ op ∈ ops, ∀ req a d e u, op = StoreOp.auth req a d e u →
      req.three_ds_server_trans_id ≠ id)
    (hset : ∀ td, s id = some td → td.results_request.isSome = true) :
    ∀ td', applyOps ops s id = some td' → td'.results_request.isSome = true := by
  induction ops generalizing s with
  | nil => exact hset
  | cons op rest ih =>
    have hstep : ∀ td, applyOp s op id = some td →
        td.results_request.isSome = true := by
      intro td htd
      cases op with
      | auth req a d e u =>
        have hne : req.three_ds_server_trans_id ≠ id :=
          hops _ (List.mem_cons_self _ _) req a d e u rfl
        have hbe : (id == req.three_ds_server_trans_id) = false := by
          simp [Ne.symm hne]
        rcases hout : authenticate_handler req a d e u with msg | ⟨f, st⟩
        · simp only [applyOp, hout] at htd
          exact hset td htd
        · simp only [applyOp, hout] at htd
          simp only [hbe, Bool.false_eq_true, if_false] at htd
          exact hset td htd
      | results r =>
        simp only [applyOp] at htd
        unfold results_handler at htd
        rcases hs : s r.three_ds_server_trans_id with _ | td0
        · simp only [hs] at htd
          exact hset td htd
        · simp only [hs] at htd
          by_cases hid : id = r.three_ds_server_trans_id
          · simp [hid] at htd
            subst htd
            rfl
          · simp [hid] at htd
            exact hset td htd
    have hops' : ∀ op' ∈ rest, ∀ req a d e u, op' = StoreOp.auth req a d e u →
        req.three_ds_server_trans_id ≠ id := by
      intro op' hmem req a d e u heq
      exact hops op' (List.mem_cons_of_mem _ hmem) req a d e u heq
    have happ : applyOps (op :: rest) s = applyOps rest (applyOp s op) := by
      simp [applyOps]
    rw [happ]
    exact ih (applyOp s op) hops' hstep

/-- Witness for C5 (amended): a results write on a record with results
already set keeps them set. -/
theorem c5_results_write_once_witness :
    applyOps [.results cexRr] c5WitStore "11111111-1111-1111-1111-111111111111" =
      some c8Td ∧ c8Td.results_request.isSome = true := by
  refine ⟨by decide, ?_⟩
  refine c5_results_write_once [.results cexRr] c5WitStore
    "11111111-1111-1111-1111-111111111111" ?_ ?_ c8Td (by decide)
  · intro op hmem req a d e u heq
    simp at hmem
    subst hmem
    cases heq
  · intro td htd
    have hsw : c5WitStore "11111111-1111-1111-1111-111111111111" = some c8Td := by
      decide
    rw [hsw] at htd
    cases htd
    rfl

/-- Helper: a 4-byte big-endian word has length 4. -/
theorem u32be_length (n : Nat) : (u32be n).length = 4 := by
  simp [u32be, beBytes]

/-- Helper: one SHA-256 compression keeps the 8-word state size. -/
theorem shaCompress_length (hs : List Nat) (block : Bytes) :
    (shaCompress hs block).length = 8 := by
  simp [shaCompress]

/-- Helper: folding compressions keeps the 8-word state size. -/
theorem foldl_shaCompress_length (blocks : List Bytes) (hs : List Nat)
    (h : hs.length = 8) : (blocks.foldl shaCompress hs).length = 8 := by
  induction blocks generalizing hs with
  | nil => exact h
  | cons b rest ih =>
      simpa using ih (shaCompress hs b) (shaCompress_length hs b)

/-- Helper: serialising words to bytes quadruples the length. -/
theorem flatMap_u32be_length (l : List Nat) :
    (l.flatMap u32be).length = 4 * l.length := by
  induction l with
  | nil => rfl
  | cons a rest ih =>
      simp [List.flatMap_cons, u32be_length, ih]
      omega

/-- Helper: SHA-256 digests have 32 bytes. -/
theorem sha256_length (msg : Bytes) : (sha256 msg).length = 32 := by
  unfold sha256
  rw [flatMap_u32be_length, foldl_shaCompress_length _ _ (by rfl)]

/-- Claim C4 (amended): under the decode, scalar, curve-point and ECDH
hypotheses, `calculate_derived_key` returns exactly the 32 bytes
`SHA-256(0x00000001 ‖ Z ‖ OtherInfo)` with the platform-specific
`sdkReferenceNumber`, for every platform tag whose ASCII lowercase is
`"android"` or `"ios"`; for a tag whose lowercase is neither, it
errors.  (The claim as frozen said any tag other than `"android"` or
`"ios"` errors; `"ANDROID"` is accepted because the source lowercases
first — see the counterexample.) -/
theorem c4_derived_key (jwk : AcsEphemPubKey) (priv platform : String)
    (xb yb db z : Bytes) (d : Nat) (pt : Nat × Nat)
    (hx : b64UrlDecode jwk.x = some xb) (hy : b64UrlDecode jwk.y = some yb)
    (hd : b64UrlDecode priv = some db) (hlen : db.length = 32)
    (hsc : scalarFromBytes db = some d)
    (hpt : sec1Parse (4 :: (xb ++ yb)) = some pt)
    (hz : ecdhZ d pt = some z) :
    (strToLower platform = "android" →
      calculate_derived_key jwk priv platform =
        .ok (specDerivedKey z "3DS_LOA_SDK_JTPL_020200_00788")) ∧
    (strToLower platform = "ios" →
      calculate_derived_key jwk priv platform =
        .ok (specDerivedKey z "3DS_LOA_SDK_JTPL_020200_00805")) ∧
    (strToLower platform ≠ "android" → strToLower platform ≠ "ios" →
      calculate_derived_key jwk priv platform =
        .error ("Unsupported platform: " ++ platform)) := by
  have htake : ∀ k : Bytes, (sha256 k).take 32 = sha256 k := by
    intro k
    conv_lhs => rw [show (32 : Nat) = (sha256 k).length from (sha256_length k).symm]
    exact List.take_length _
  refine ⟨?_, ?_, ?_⟩
  · intro hA
    simp only [calculate_derived_key, hx, hy, hd, hlen, hsc, hpt, hz, hA]
    simp [specDerivedKey, specOtherInfo, htake, u32be,
      show beBytes 4 256 = [0, 0, 1, 0] from by decide]
  · intro hI
    simp only [calculate_derived_key, hx, hy, hd, hlen, hsc, hpt, hz, hI]
    simp [specDerivedKey, specOtherInfo, htake, u32be,
      show beBytes 4 256 = [0, 0, 1, 0] from by decide]
  · intro hA hI
    simp only [calculate_derived_key, hx, hy, hd, hlen, hsc, hpt, hz]
    simp [hA, hI]

/-- Claim C4 counterexample: the platform tag `"ANDROID"` is neither
`"android"` nor `"ios"`, yet `calculate_derived_key` succeeds on it (the
source lowercases the tag), contradicting the claim that any other tag
returns an error. -/
theorem c4_counterexample :
    ¬("ANDROID" = "android" ∨ "ANDROID" = "ios") ∧
    (calculate_derived_key witSdkJwk witPrivKey "ANDROID").isOk = true := by
  exact ⟨by decide, by decide⟩

/-- Witness for C4 (amended) at the base point and scalar 1. -/
theorem c4_derived_key_witness :
    calculate_derived_key witSdkJwk witPrivKey "android" =
      .ok (specDerivedKey (beBytes 32 p256GxN) "3DS_LOA_SDK_JTPL_020200_00788") := by
  exact (c4_derived_key witSdkJwk witPrivKey "android"
    (beBytes 32 p256GxN) (beBytes 32 p256GyN) (beBytes 32 1)
    (beBytes 32 p256GxN) 1 (p256GxN, p256GyN)
    (by decide) (by decide) (by decide) (by decide) (by decide) (by decide)
    (by decide)).1 (by decide)

/-- Claim C3: on OTP `"1234"` both challenge paths produce
`authenticationValue` equal to the standard base64 of the 20-byte CAVV
payload with `eci = "02"`; on any other OTP the constant
`AAAAAAAAAAAAAAAAAAAAAA==` with `eci = "07"`.  Parts: the shared OTP
policy equals the spec payload; the browser path's submitted `RReq`
carries exactly those values; the mobile path's submitted `RReq` does
too (for any decrypted `CReq` carrying that OTP). -/
theorem c3_auth_value_policy (otp : String) :
    (otp = "1234" →
      otpOutcome otp = ("Y", "02", b64StdEncode specCavv)) ∧
    (otp ≠ "1234" →
      otpOutcome otp = ("N", "07", "AAAAAAAAAAAAAAAAAAAAAA==")) ∧
    (∀ (queryRedirect : Option String) (formTransId : String)
        (getResult : Except StateError (Option TransactionData))
        (rr : ResultsRequest),
      (acs_verify_otp_handler queryRedirect otp formTransId getResult).2 =
          some rr →
      (rr.trans_status, rr.eci, rr.authentication_value) = otpOutcome otp) ∧
    (∀ (jweData : String) (b : Bool)
        (findResult : Except StateError (Option (String × TransactionData)))
        (respIv : Bytes) (cnt mv : Option String) (rr : ResultsRequest),
      (challenge_handler jweData b findResult
        (fun _ => some { challengeDataEntry := some otp, sdkCounterStoA := cnt,
                         messageVersion := mv }) respIv).2 = some rr →
      (rr.trans_status, rr.eci, rr.authentication_value) = otpOutcome otp) := by
  refine ⟨?_, ?_, ?_, ?_⟩
  · intro h
    subst h
    show ("Y", "02", generate_authentic_auth_value) = _
    rw [show generate_authentic_auth_value = b64StdEncode specCavv from by decide]
  · intro h
    simp [otpOutcome, h, generate_failed_auth_value]
  · intro queryRedirect formTransId getResult rr h
    unfold acs_verify_otp_handler at h
    rcases hu : uuidParse formTransId with _ | tid
    · simp [hu] at h
    · simp only [hu] at h
      rcases getResult with e | (_ | td)
      · simp at h
      · simp at h
      · simp only at h
        injection h with h'
        subst h'
        rfl
  · intro jweData b findResult respIv cnt mv rr h
    unfold challenge_handler at h
    dsimp only at h
    repeat' split at h
    all_goals simp only [] at h
    all_goals try simp at h
    all_goals (subst h; rfl)

/-- Witness for C3: the shared OTP policy at OTP `"1234"` yields
(`"Y"`, `"02"`, base64 of the spec CAVV payload), a wrong OTP yields
(`"N"`, `"07"`, the constant string), and the mobile challenge run on
the concrete inbound JWE submits an `RReq` carrying exactly the policy
values. -/
theorem c3_auth_value_policy_witness :
    otpOutcome "1234" = ("Y", "02", b64StdEncode specCavv) ∧
    otpOutcome "0000" = ("N", "07", "AAAAAAAAAAAAAAAAAAAAAA==") ∧
    (witRr.trans_status, witRr.eci, witRr.authentication_value) =
      otpOutcome "1234" :=
  ⟨(c3_auth_value_policy "1234").1 rfl,
   (c3_auth_value_policy "0000").2.1 (by decide),
   (c3_auth_value_policy "1234").2.2.2 witCreqJwe false witFind witRespIv
     (some "001") (some "2.2.0") witRr (by decide)⟩

/-- Appending on the right preserves the leading segment. -/
theorem strStartsWith_append (a t : String) : strStartsWith (a ++ t) a = true := by
  simp [strStartsWith]

/-- A five-part JWE string starts with its own header segment plus dot. -/
theorem strStartsWith_jwe (h x y z : String) :
    strStartsWith (h ++ "." ++ "" ++ "." ++ x ++ "." ++ y ++ "." ++ z)
      (h ++ ".") = true := by
  have e : h ++ "." ++ "" ++ "." ++ x ++ "." ++ y ++ "." ++ z =
      (h ++ ".") ++ ("" ++ "." ++ x ++ "." ++ y ++ "." ++ z) := by
    simp only [String.append_assoc]
  rw [e]
  exact strStartsWith_append _ _

/-- Source `crypto.rs::encrypt_challenge_response`: a successful
encryption for platform `android` or `ios` produces a JWE whose first
dot-segment is the base64url protected header with that dialect's `enc`
value. -/
theorem encrypt_header_prefix (pt : Bytes) (kid : String) (dk : Bytes)
    (p : String) (iv : Bytes) (out : String)
    (hp : p = "android" ∨ p = "ios")
    (hok : encrypt_challenge_response pt kid dk p iv = .ok out) :
    strStartsWith out
      (b64UrlEncode (strBytes (jweHeaderStr
        (if p = "android" then "A128CBC-HS256" else "A128GCM") kid)) ++ ".") =
      true := by
  rcases hp with hp | hp <;> subst hp
  · unfold encrypt_challenge_response at hok
    rw [show (strToLower "android" == "android") = true from by decide,
      if_pos rfl] at hok
    split at hok
    · exact absurd hok (by simp)
    · dsimp only at hok
      injection hok with h'
      subst h'
      rw [if_pos rfl]
      exact strStartsWith_jwe _ _ _ _
  · unfold encrypt_challenge_response at hok
    rw [show (strToLower "ios" == "android") = false from by decide,
      if_neg Bool.false_ne_true,
      show (strToLower "ios" == "ios") = true from by decide,
      if_pos rfl] at hok
    split at hok
    · exact absurd hok (by simp)
    · dsimp only at hok
      injection hok with h'
      subst h'
      rw [if_neg (by decide)]
      exact strStartsWith_jwe _ _ _ _

/-- Claim C9: the mobile challenge response is always encrypted with the
dialect detected on the inbound request.  Under a parsed protected
header: (a) any inbound `enc` other than `A128CBC-HS256` or `A128GCM`
is answered with 400 `Unsupported encryption algorithm` (and no results
submission) even when the record and both ephemeral keys are present,
so the default-to-android arm of the later platform match is
unreachable; (b) whenever the handler answers 200 with a JWE, that
JWE's protected header is the serialisation carrying the inbound `enc`
value itself. -/
theorem c9_enc_dialect_consistency
    (jweData : String) (b : Bool)
    (findResult : Except StateError (Option (String × TransactionData)))
    (payloadParse : Bytes → Option CReqFields) (respIv : Bytes)
    (headerData : Bytes) (headerJson : List (String × String)) (kid : String)
    (hguard : (strStartsWith (strTrim jweData) "\x7b" &&
      strEndsWith (strTrim jweData) "\x7d" && b) = false)
    (hlen : ((strSplitOnDot jweData).length != 5) = false)
    (hhd : b64UrlDecode ((strSplitOnDot jweData).getD 0 "") = some headerData)
    (hjson : jsonFlatParse (String.mk (headerData.map Char.ofNat)) =
      some headerJson)
    (hkid : jsonGet headerJson "kid" = some kid) :
    (∀ u found sk ek, uuidParse kid = some u →
        findResult = .ok (some found) →
        found.2.sdk_ephemeral_public_key = some sk →
        found.2.ephemeral_keys = some ek →
        (jsonGet headerJson "enc").getD "unknown" ≠ "A128CBC-HS256" →
        (jsonGet headerJson "enc").getD "unknown" ≠ "A128GCM" →
        challenge_handler jweData b findResult payloadParse respIv =
          (.badRequest "Unsupported encryption algorithm", none)) ∧
    (∀ out,
        (challenge_handler jweData b findResult payloadParse respIv).1 =
          .okJose out →
        strStartsWith out
          (b64UrlEncode (strBytes (jweHeaderStr
            ((jsonGet headerJson "enc").getD "unknown") kid)) ++ ".") =
          true) := by
  constructor
  · intro u found sk ek huu hfind hsk hek h1 h2
    subst hfind
    have hb1 : ((jsonGet headerJson "enc").getD "unknown" ==
        "A128CBC-HS256") = false := beq_eq_false_iff_ne.mpr h1
    have hb2 : ((jsonGet headerJson "enc").getD "unknown" ==
        "A128GCM") = false := beq_eq_false_iff_ne.mpr h2
    unfold challenge_handler
    dsimp only
    simp only [hguard, hlen, Bool.false_eq_true, if_false, hhd, hjson, hkid,
      huu, hsk, hek, hb1, hb2]
  · intro out h
    unfold challenge_handler at h
    dsimp only at h
    simp only [hguard, hlen, Bool.false_eq_true, if_false, hhd, hjson,
      hkid] at h
    rcases huu : uuidParse kid with _ | u
    · simp [huu] at h
    · simp only [huu] at h
      rcases findResult with e | fo
      · simp at h
      · rcases fo with _ | found
        · simp at h
        · simp only [] at h
          rcases hsk : found.2.sdk_ephemeral_public_key with _ | sk
          · simp [hsk] at h
          · rcases hek : found.2.ephemeral_keys with _ | ek
            · simp [hsk, hek] at h
            · simp only [hsk, hek] at h
              by_cases hc1 : ((jsonGet headerJson "enc").getD "unknown" ==
                  "A128CBC-HS256") = true
              · simp only [hc1, eq_self_iff_true, if_true] at h
                rw [eq_of_beq hc1]
                rcases hdk : calculate_derived_key sk ek.private_key
                    "android" with e | dk
                · simp [hdk] at h
                · simp only [hdk] at h
                  rcases hde : decrypt_challenge_request jweData dk with e | ptx
                  · simp [hde] at h
                  · simp only [hde] at h
                    rcases hpp : payloadParse ptx with _ | cr
                    · simp [hpp] at h
                    · simp only [hpp] at h
                      rcases hce : cr.challengeDataEntry with _ | uo <;>
                        simp only [hce] at h <;> split at h
                      · simp at h
                      · rename_i jwe heq
                        injection h with h'
                        subst h'
                        have := encrypt_header_prefix _ kid dk "android"
                          respIv jwe (Or.inl rfl) heq
                        simpa using this
                      · simp at h
                      · rename_i jwe heq
                        injection h with h'
                        subst h'
                        have := encrypt_header_prefix _ kid dk "android"
                          respIv jwe (Or.inl rfl) heq
                        simpa using this
              · rw [Bool.not_eq_true] at hc1
                by_cases hc2 : ((jsonGet headerJson "enc").getD "unknown" ==
                    "A128GCM") = true
                · simp only [hc1, hc2, Bool.false_eq_true, if_false,
                    eq_self_iff_true, if_true] at h
                  rw [eq_of_beq hc2]
                  rcases hdk : calculate_derived_key sk ek.private_key
                      "ios" with e | dk
                  · simp [hdk] at h
                  · simp only [hdk] at h
                    rcases hde : decrypt_challenge_request jweData dk
                        with e | ptx
                    · simp [hde] at h
                    · simp only [hde] at h
                      rcases hpp : payloadParse ptx with _ | cr
                      · simp [hpp] at h
                      · simp only [hpp] at h
                        rcases hce : cr.challengeDataEntry with _ | uo <;>
                          simp only [hce] at h <;> split at h
                        · simp at h
                        · rename_i jwe heq
                          injection h with h'
                          subst h'
                          have := encrypt_header_prefix _ kid dk "ios"
                            respIv jwe (Or.inr rfl) heq
                          simpa using this
                        · simp at h
                        · rename_i jwe heq
                          injection h with h'
                          subst h'
                          have := encrypt_header_prefix _ kid dk "ios"
                            respIv jwe (Or.inr rfl) heq
                          simpa using this
                · rw [Bool.not_eq_true] at hc2
                  simp [hc1, hc2] at h

/-- Witness for C9: the unsupported-enc JWE `c9BadJwe` is answered with
400 before any key derivation, and the concrete Android challenge run
answers 200 with a JWE whose protected header carries the inbound enc
`A128CBC-HS256`. -/
theorem c9_enc_dialect_consistency_witness :
    challenge_handler c9BadJwe false witFind witParse witRespIv =
      (.badRequest "Unsupported encryption algorithm", none) ∧
    ∃ out,
      (challenge_handler witCreqJwe false witFind witParse witRespIv).1 =
        .okJose out ∧
      strStartsWith out
        (b64UrlEncode (strBytes (jweHeaderStr "A128CBC-HS256"
          "11111111-2222-3333-4444-555555555555")) ++ ".") = true := by
  have h2 := (c9_enc_dialect_consistency witCreqJwe false witFind witParse
    witRespIv c9HeaderData c9HeaderJson
    "11111111-2222-3333-4444-555555555555"
    (by decide) (by decide) (by decide) (by decide) (by decide)).2
  refine ⟨?_, _, rfl, h2 _ rfl⟩
  exact (c9_enc_dialect_consistency c9BadJwe false witFind witParse witRespIv
    (strBytes c9BadHeader) c9BadHeaderJson
    "11111111-2222-3333-4444-555555555555"
    (by decide) (by decide) (by decide) (by decide) (by decide)).1
    "11111111-2222-3333-4444-555555555555"
    ("99999999-8888-7777-6666-555555555555", witTd) witSdkJwk
    { private_key := witPrivKey, public_key := witSdkJwk }
    (by decide) rfl rfl rfl (by decide) (by decide)

/-- Claim C1: the JWE round trip fails for the iOS dialect.  On the
32-byte derived key `0,1,...,31` (whose halves differ) and the two-byte
JSON message, `encrypt_challenge_response` succeeds for platform `ios`
(A128GCM, keying bytes 16..31) but `decrypt_challenge_request` of the
produced JWE under the same derived key rejects it with the GCM
decryption error (it keys bytes 0..15), while the Android dialect
round-trips the same message under the same derived key. -/
theorem c1_ios_roundtrip_fails :
    (encrypt_challenge_response c1Msg c1Kid c1Key "ios" c1IvIos).isOk = true ∧
    ((encrypt_challenge_response c1Msg c1Kid c1Key "ios" c1IvIos).bind
        (fun jwe => decrypt_challenge_request jwe c1Key)) =
      .error "iOS A128GCM decryption failed" ∧
    ((encrypt_challenge_response c1Msg c1Kid c1Key "android" c1IvAndroid).bind
        (fun jwe => decrypt_challenge_request jwe c1Key)) = .ok c1Msg := by
  refine ⟨by decide, by decide, by decide⟩
